import Mathlib

/-!
# Upload handlers of the video service

A shallow embedding of `handlerUploadThumbnail` (handler_upload_thumbnail.go) and
`handlerUploadVideo` (handler_upload_video.go).

Each handler is a function from the configuration, the behaviour of the
libraries and collaborators it calls, and the request, to the ordered list of
the effectful calls it makes (its trace).  A call into a library or a
collaborator takes its result from `Lib` (deterministic helpers) or `Env`
(calls whose outcome the handler cannot control).  A deferred call is written
at every return that follows its `defer`, in last-in first-out order.
-/

namespace Tubely

/-! ## Data model -/

/-- One octet. -/
abbrev Byte := Fin 256

/-- The 16 octets of a `uuid.UUID`. -/
structure UUID where
  bytes : List Byte
  deriving DecidableEq, Repr

/-- Two lower-case hexadecimal digits of an octet. -/
def hexByte (b : Byte) : List Char :=
  let digits := "0123456789abcdef".toList
  [digits.getD (b.val / 16) '0', digits.getD (b.val % 16) '0']

/-- The canonical text of `uuid.UUID.String()`: `xxxxxxxx-xxxx-xxxx-xxxx-xxxxxxxxxxxx`. -/
def UUID.String (u : UUID) : String :=
  let hex (xs : List Byte) : List Char := xs.flatMap hexByte
  let b := u.bytes
  String.mk (hex (b.take 4) ++ ['-'] ++ hex ((b.drop 4).take 2) ++ ['-']
    ++ hex ((b.drop 6).take 2) ++ ['-'] ++ hex ((b.drop 8).take 2) ++ ['-']
    ++ hex (b.drop 10))

/-- Modelled from the spec: the VideoRecord of `database.Video`, whose declaration is
not among the sources.  Identity, owner, the two optional URL fields, and `Rest`
for the remaining columns, which the handlers never touch. -/
structure Video where
  ID : UUID
  UserID : UUID
  ThumbnailURL : Option String
  VideoURL : Option String
  Rest : String
  deriving DecidableEq, Repr

/-- The fields of `apiConfig` the two handlers read (`db` and `s3Client` are in `Env`). -/
structure apiConfig where
  jwtSecret : String
  assetsRoot : String
  port : String
  s3Bucket : String
  s3Region : String
  deriving DecidableEq, Repr

/-- A header map of `net/http` or `net/textproto`: keys with their first value. -/
abbrev Header := List (String × String)

/-- The value of `Header.Get`: the value stored under the key, or the empty string. -/
def Header.Get (h : Header) (key : String) : String :=
  match h.lookup key with
  | some v => v
  | none => ""

/-- The request body as the handler sees it: its length on the wire and the
byte limit installed by `http.MaxBytesReader`, if any. -/
structure Body where
  size : Nat
  limit : Option Nat
  deriving DecidableEq, Repr

/-- The effect of `http.MaxBytesReader(w, body, n)`: reads past `n` bytes fail. -/
def MaxBytesReader (b : Body) (n : Nat) : Body :=
  { b with limit := some (match b.limit with
                          | some m => min m n
                          | none => n) }

/-- The parts of `*http.Request` the handlers read. -/
structure Request where
  videoID : String
  Header : Header
  Body : Body
  deriving DecidableEq, Repr

/-- The value of `r.PathValue`: only the `videoID` wildcard is bound. -/
def Request.PathValue (r : Request) (name : String) : String :=
  if name = "videoID" then r.videoID else ""

/-- A `multipart.File`: a handle on the uploaded part; the handlers only copy and close it. -/
structure File where
  handle : Nat
  deriving DecidableEq, Repr

/-- The fields of `multipart.FileHeader` the handlers read. -/
structure FileHeader where
  Filename : String
  Header : Header
  Size : Int
  deriving DecidableEq, Repr

/-- The fields of `s3.PutObjectInput` the video handler sets; `Body` is the
name of the temporary file the object is read from. -/
structure PutObjectInput where
  Bucket : String
  Key : String
  Body : String
  ContentLength : Int
  ContentType : String
  deriving DecidableEq, Repr

/-- What a response write carries: the error envelope or the video record. -/
inductive Payload where
  | error (msg : String)
  | video (v : Video)
  deriving DecidableEq, Repr

deriving instance DecidableEq for Except

/-- The effectful calls of the handlers, each with its arguments and, where the
handler looks at it, its result (`none` is a nil error). -/
inductive Event where
  | Respond (code : Nat) (body : Payload)
  | Warn (msg : String)
  | RemoveAll
  | FileClose (f : File)
  | OsCreate (path : String) (err : Option String)
  | OutFileClose (path : String)
  | IoCopy (dst : String) (src : File) (err : Option String)
  | UpdateVideo (v : Video) (err : Option String)
  | CreateTemp (dir pattern : String) (res : Except String String)
  | TempClose (name : String)
  | TempRemove (name : String)
  | Seek (name : String) (err : Option String)
  | PutObject (input : PutObjectInput) (err : Option String)
  deriving DecidableEq, Repr

/-- Modelled from the spec: `respondWithError`, which is not among the sources.
It writes one response with the given status and the envelope with the message. -/
def respondWithError (code : Nat) (msg : String) : Event :=
  Event.Respond code (Payload.error msg)

/-- Modelled from the spec: `respondWithJSON`, which is not among the sources.
It writes one response with the given status and the record as its body. -/
def respondWithJSON (code : Nat) (v : Video) : Event :=
  Event.Respond code (Payload.video v)

/-! ## Libraries and collaborators -/

/-- What `rand.Read` did: the bytes it delivered, and the `n` and `err` it returned. -/
structure RandRead where
  data : List Byte
  n : Nat
  err : Option String

/-- Deterministic library helpers, taken as parameters:
`uuid.Parse`, `auth.GetBearerToken`, `mime.ExtensionsByType`,
`mime.ParseMediaType` (its base type), `filepath.Join`. -/
structure Lib where
  uuidParse : String → Except String UUID
  GetBearerToken : Header → Except String String
  ExtensionsByType : String → Except String (List String)
  ParseMediaType : String → Except String String
  filepathJoin : String → String → String

/-- Calls whose outcome depends on the world: `auth.ValidateJWT`, the form
reader, the metadata store, the random source, the file system and the object
store.  An `Option String` is the returned error, `none` for nil. -/
structure Env where
  ValidateJWT : String → String → Except String UUID
  ParseMultipartForm : Request → Nat → Option String
  FormFile : Request → String → Except String (File × FileHeader)
  GetVideo : UUID → Except String Video
  UpdateVideo : Video → Option String
  randRead : Nat → RandRead
  osCreate : String → Option String
  ioCopy : String → File → Option String
  CreateTemp : String → String → Except String String
  Seek : String → Option String
  PutObject : PutObjectInput → Option String

/-! ## `encoding/base64`, the unpadded URL-safe alphabet -/

/-- The alphabet of `base64.URLEncoding`. -/
def encodeURL : List Char :=
  "ABCDEFGHIJKLMNOPQRSTUVWXYZabcdefghijklmnopqrstuvwxyz0123456789-_".toList

/-- The character of a 6-bit group. -/
def b64Char (i : Nat) : Char := encodeURL.getD i 'A'

/-- The characters of `base64.RawURLEncoding.EncodeToString`: three octets give
four characters, the last one or two octets give two or three, with no padding. -/
def rawURLChars : List Byte → List Char
  | a :: b :: c :: rest =>
      b64Char (a.val / 4) :: b64Char ((a.val % 4) * 16 + b.val / 16)
        :: b64Char ((b.val % 16) * 4 + c.val / 64) :: b64Char (c.val % 64)
        :: rawURLChars rest
  | [a, b] =>
      [b64Char (a.val / 4), b64Char ((a.val % 4) * 16 + b.val / 16),
       b64Char ((b.val % 16) * 4)]
  | [a] => [b64Char (a.val / 4), b64Char ((a.val % 4) * 16)]
  | [] => []

/-- The text of `base64.RawURLEncoding.EncodeToString`. -/
def RawURLEncoding (src : List Byte) : String := String.mk (rawURLChars src)

/-- The slice after `rand.Read(buf)`: the delivered bytes overwrite the front of
the buffer, whose length does not change. -/
def readInto (buf data : List Byte) : List Byte :=
  data.take buf.length ++ buf.drop data.length

/-- The slice of `make([]byte, n)`. -/
def makeBytes (n : Nat) : List Byte := List.replicate n 0

/-! ## handler_upload_thumbnail.go -/

/-- The constant `maxMemory` of `handlerUploadThumbnail`: `10 << 20`. -/
def maxMemory : Nat := 10 * 2 ^ 20

/-- The warning both handlers log when `UpdateVideo` fails (lines 171 to 174 of
the thumbnail handler, 148 to 150 of the video handler); the request goes on. -/
def warnUpdateFailed (err : Option String) : List Event :=
  match err with
  | some e => [Event.Warn ("Warning: Failed to update video URL in DB: " ++ e ++ "\n")]
  | none => []

/-- Lines 92 to 100: the first extension of the declared type, or `.jpg` with a warning. -/
def thumbnailExtension (lib : Lib) (mediaType : String) : String × List Event :=
  match lib.ExtensionsByType mediaType with
  | .ok (e :: _) => (e, [])
  | _ => (".jpg", [Event.Warn ("Warning: Could not determine extension for " ++ mediaType
                      ++ ", defaulting to .jpg\n")])

/-- Lines 85 to 177 of `handlerUploadThumbnail`, the section headed "3. Save
Bytes to File on Disk and Update Database URL", which runs once the caller is
known to own `video`.  Its deferred calls `outFile.Close()`, `file.Close()` and
`r.MultipartForm.RemoveAll()` end every return. -/
def thumbnailStore (lib : Lib) (cfg : apiConfig) (env : Env) (file : File)
    (mediaType : String) (video : Video) : List Event :=
  let ext := thumbnailExtension lib mediaType
  let extension := ext.1
  let rd := env.randRead 4
  let rand_string := readInto (makeBytes 4) rd.data
  -- neither of the next two branches returns
  let e1 := if rd.err.isSome then
      [respondWithError 500 "Error reading random bytes: %v"] else []
  let e2 := if rd.n ≠ 4 then
      [respondWithError 500 ("Expected to read 4 bytes, but read " ++ toString rd.n)] else []
  let randomUint32 := RawURLEncoding rand_string
  let filename := randomUint32 ++ extension
  let fullPath := lib.filepathJoin cfg.assetsRoot filename
  let pre := ext.2 ++ e1 ++ e2
  match env.osCreate fullPath with
  | some e =>
      pre ++ [Event.OsCreate fullPath (some e),
              respondWithError 500 "Couldn\x27t create file on disk",
              Event.FileClose file, Event.RemoveAll]
  | none =>
  -- defer outFile.Close()
  match env.ioCopy fullPath file with
  | some e =>
      pre ++ [Event.OsCreate fullPath none, Event.IoCopy fullPath file (some e),
              respondWithError 500 "Couldn\x27t copy file contents",
              Event.OutFileClose fullPath, Event.FileClose file, Event.RemoveAll]
  | none =>
  let thumbnailURL := "http://localhost:" ++ cfg.port ++ "/assets/" ++ filename
  let video := { video with ThumbnailURL := some thumbnailURL }
  let err := env.UpdateVideo video
  let w := warnUpdateFailed err
  pre ++ [Event.OsCreate fullPath none, Event.IoCopy fullPath file none,
          Event.UpdateVideo video err] ++ w ++
         [respondWithJSON 200 video,
          Event.OutFileClose fullPath, Event.FileClose file, Event.RemoveAll]

/-- The trace of `(cfg *apiConfig) handlerUploadThumbnail(w, r)`. -/
def handlerUploadThumbnail (lib : Lib) (cfg : apiConfig) (env : Env) (r : Request) :
    List Event :=
  match lib.uuidParse (r.PathValue "videoID") with
  | .error _ => [respondWithError 400 "Invalid ID"]
  | .ok videoID =>
  match lib.GetBearerToken r.Header with
  | .error _ => [respondWithError 401 "Couldn\x27t find JWT"]
  | .ok token =>
  match env.ValidateJWT token cfg.jwtSecret with
  | .error _ => [respondWithError 401 "Couldn\x27t validate JWT"]
  | .ok userID =>
  match env.ParseMultipartForm r maxMemory with
  | some _ => [respondWithError 500 "Couldn\x27t parse form data"]
  | none =>
  -- defer r.MultipartForm.RemoveAll()
  match env.FormFile r "thumbnail" with
  | .error _ =>
      [respondWithError 400 "Couldn\x27t find \x27thumbnail\x27 file in form", Event.RemoveAll]
  | .ok (file, header) =>
  -- defer file.Close()
  let mediaType := header.Header.Get "Content-Type"
  if mediaType = "" then
    [respondWithError 400 "Missing Content-Type header", Event.FileClose file, Event.RemoveAll]
  else
  match env.GetVideo videoID with
  | .error _ =>
      [respondWithError 500 "Couldn\x27t get video metadata", Event.FileClose file,
       Event.RemoveAll]
  | .ok video =>
  if video.UserID ≠ userID then
    [respondWithError 401 "User is not the video owner", Event.FileClose file, Event.RemoveAll]
  else
  thumbnailStore lib cfg env file mediaType video

/-! ## handler_upload_video.go -/

/-- The constant `maxUploadSize` of `handlerUploadVideo`: `1 << 30`. -/
def maxUploadSize : Nat := 2 ^ 30

/-- The constant `expectedMIMEType` of `handlerUploadVideo`. -/
def expectedMIMEType : String := "video/mp4"

/-- The deferred calls of `handlerUploadVideo` once the temporary file exists:
`tempFile.Close()`, `os.Remove(tempFile.Name())`, `file.Close()`, last in first out. -/
def videoCleanup (name : String) (file : File) : List Event :=
  [Event.TempClose name, Event.TempRemove name, Event.FileClose file]

/-- Lines 83 to 152 of `handlerUploadVideo`, the sections headed "Temporary
File Handling and S3 Upload" and "Update Database URL and Respond", which run
once the declared type is validated.  The deferred `file.Close()` ends every
return, after the deferred calls on the temporary file once it exists. -/
def videoStore (cfg : apiConfig) (env : Env) (videoID : UUID) (video : Video)
    (file : File) (header : FileHeader) (baseType : String) : List Event :=
  let extension := ".mp4"
  match env.CreateTemp "" "tubely-upload-*.mp4" with
  | .error e =>
      [Event.CreateTemp "" "tubely-upload-*.mp4" (.error e),
       respondWithError 500 "Failed to create temporary file", Event.FileClose file]
  | .ok name =>
  -- defer os.Remove(tempFile.Name()); defer tempFile.Close()
  let created := Event.CreateTemp "" "tubely-upload-*.mp4" (.ok name)
  match env.ioCopy name file with
  | some e =>
      [created, Event.IoCopy name file (some e),
       respondWithError 500 "Failed to copy file contents to temporary storage"]
        ++ videoCleanup name file
  | none =>
  match env.Seek name with
  | some e =>
      [created, Event.IoCopy name file none, Event.Seek name (some e),
       respondWithError 500 "Failed to reset file pointer"] ++ videoCleanup name file
  | none =>
  let s3Key := videoID.String ++ extension
  let s3UploadInput : PutObjectInput :=
    { Bucket := cfg.s3Bucket, Key := s3Key, Body := name,
      ContentLength := header.Size, ContentType := baseType }
  match env.PutObject s3UploadInput with
  | some e =>
      [created, Event.IoCopy name file none, Event.Seek name none,
       Event.PutObject s3UploadInput (some e),
       respondWithError 500 "Failed to upload video to S3"] ++ videoCleanup name file
  | none =>
  let videoURL :=
    "https://" ++ cfg.s3Bucket ++ ".s3." ++ cfg.s3Region ++ ".amazonaws.com/" ++ s3Key
  let video := { video with VideoURL := some videoURL }
  let err := env.UpdateVideo video
  let w := warnUpdateFailed err
  [created, Event.IoCopy name file none, Event.Seek name none,
   Event.PutObject s3UploadInput none, Event.UpdateVideo video err] ++ w ++
    [respondWithJSON 200 video] ++ videoCleanup name file

/-- The trace of `(cfg *apiConfig) handlerUploadVideo(w, r)`. -/
def handlerUploadVideo (lib : Lib) (cfg : apiConfig) (env : Env) (r : Request) :
    List Event :=
  match lib.uuidParse (r.PathValue "videoID") with
  | .error _ => [respondWithError 400 "Invalid video ID format"]
  | .ok videoID =>
  match lib.GetBearerToken r.Header with
  | .error _ => [respondWithError 401 "Couldn\x27t find JWT"]
  | .ok token =>
  match env.ValidateJWT token cfg.jwtSecret with
  | .error _ => [respondWithError 401 "Couldn\x27t validate JWT"]
  | .ok userID =>
  match env.GetVideo videoID with
  | .error _ => [respondWithError 500 "Couldn\x27t get video metadata"]
  | .ok video =>
  if video.UserID ≠ userID then
    [respondWithError 401 "User is not the video owner"]
  else
  -- r.Body = http.MaxBytesReader(w, r.Body, maxUploadSize)
  let r := { r with Body := MaxBytesReader r.Body maxUploadSize }
  match env.FormFile r "video" with
  | .error e =>
      if e = "http: request body too large" then
        [respondWithError 413
          ("Video file exceeds the limit of " ++ toString maxUploadSize ++ " bytes")]
      else
        [respondWithError 400 "Couldn\x27t read \x27video\x27 file from form"]
  | .ok (file, header) =>
  -- defer file.Close()
  let mediaType := header.Header.Get "Content-Type"
  match lib.ParseMediaType mediaType with
  | .error _ =>
      [respondWithError 400 "Invalid Content-Type header format", Event.FileClose file]
  | .ok baseType =>
  if baseType ≠ expectedMIMEType then
    [respondWithError 400
      ("Invalid video format: expected " ++ expectedMIMEType ++ ", got " ++ baseType),
     Event.FileClose file]
  else
  videoStore cfg env videoID video file header baseType

/-! ## Observations on a trace -/

/-- The response writes of a trace, in order. -/
def responses : List Event → List (Nat × Payload)
  | [] => []
  | Event.Respond code body :: es => (code, body) :: responses es
  | _ :: es => responses es

/-- The status the client receives: `net/http` sends the status of the first
write of the header and ignores a later one. -/
def responseStatus (tr : List Event) : Option Nat :=
  match responses tr with
  | [] => none
  | (code, _) :: _ => some code

/-- The calls that write to storage or to the metadata store: file creation
and copy, temporary file creation, the object-store put, `UpdateVideo`. -/
def Event.isStorageWrite : Event → Bool
  | Event.OsCreate _ _ => true
  | Event.IoCopy _ _ _ => true
  | Event.CreateTemp _ _ _ => true
  | Event.PutObject _ _ => true
  | Event.UpdateVideo _ _ => true
  | _ => false

/-- The storage writes of a trace, in order. -/
def storageWrites (tr : List Event) : List Event := tr.filter Event.isStorageWrite

/-- The object-store puts of a trace, in order. -/
def puts : List Event → List PutObjectInput
  | [] => []
  | Event.PutObject input _ :: es => input :: puts es
  | _ :: es => puts es

/-- The paths handed to `os.Create`, in order. -/
def created : List Event → List String
  | [] => []
  | Event.OsCreate path _ :: es => path :: created es
  | _ :: es => created es

/-- The records handed to `UpdateVideo`, in order. -/
def updates : List Event → List Video
  | [] => []
  | Event.UpdateVideo v _ :: es => v :: updates es
  | _ :: es => updates es

/-- What a trace does after its first response write. -/
def afterFirstResponse : List Event → List Event
  | [] => []
  | Event.Respond _ _ :: es => es
  | _ :: es => afterFirstResponse es

/-- The temporary files that exist after a trace, given those before it:
a successful `os.CreateTemp` adds its file, `os.Remove` deletes it. -/
def tempFiles : List String → List Event → List String
  | fs, [] => fs
  | fs, Event.CreateTemp _ _ (.ok name) :: es => tempFiles (name :: fs) es
  | fs, Event.TempRemove name :: es => tempFiles (fs.filter (fun f => f ≠ name)) es
  | fs, _ :: es => tempFiles fs es

/-- The temporary files left open by a trace, given those open before it. -/
def openTemps : List String → List Event → List String
  | fs, [] => fs
  | fs, Event.CreateTemp _ _ (.ok name) :: es => openTemps (name :: fs) es
  | fs, Event.TempClose name :: es => openTemps (fs.filter (fun f => f ≠ name)) es
  | fs, _ :: es => openTemps fs es

/-! ## Names the handlers build -/

/-- The file name of line 115: the token of the four random bytes, then the extension. -/
def thumbnailFilename (lib : Lib) (env : Env) (mediaType : String) : String :=
  RawURLEncoding (readInto (makeBytes 4) (env.randRead 4).data)
    ++ (thumbnailExtension lib mediaType).1

/-- The path of line 122, handed to `os.Create`. -/
def thumbnailPath (lib : Lib) (cfg : apiConfig) (env : Env) (mediaType : String) : String :=
  lib.filepathJoin cfg.assetsRoot (thumbnailFilename lib env mediaType)

/-- The input of the put of lines 121 to 127. -/
def videoPutInput (cfg : apiConfig) (videoID : UUID) (name : String) (header : FileHeader) :
    PutObjectInput :=
  { Bucket := cfg.s3Bucket, Key := videoID.String ++ ".mp4", Body := name,
    ContentLength := header.Size, ContentType := "video/mp4" }

/-! ## A sample deployment, for concrete runs -/

/-- The identifier of the sample video. -/
def sampleID : UUID :=
  ⟨[0x6b, 0xa7, 0xb8, 0x10, 0x9d, 0xad, 0x11, 0xd1, 0x80, 0xb4, 0x00, 0xc0, 0x4f, 0xd4,
    0x30, 0xc8]⟩

/-- The user who owns the sample video. -/
def ownerID : UUID := ⟨List.replicate 16 1⟩

/-- Another user. -/
def otherID : UUID := ⟨List.replicate 16 2⟩

/-- The sample record, with no asset uploaded yet. -/
def sampleVideo : Video :=
  { ID := sampleID, UserID := ownerID, ThumbnailURL := none, VideoURL := none,
    Rest := "title=Boots" }

/-- The sample configuration. -/
def sampleCfg : apiConfig :=
  { jwtSecret := "secret", assetsRoot := "assets", port := "8091",
    s3Bucket := "tubely-1234", s3Region := "us-east-2" }

/-- Library stand-ins that answer on the inputs of the sample runs. -/
def sampleLib : Lib where
  uuidParse s :=
    if s = "6ba7b810-9dad-11d1-80b4-00c04fd430c8" then .ok sampleID
    else .error "invalid UUID format"
  GetBearerToken h :=
    match h.lookup "Authorization" with
    | some "Bearer owner-token" => .ok "owner-token"
    | some "Bearer other-token" => .ok "other-token"
    | _ => .error "no auth header included in request"
  ExtensionsByType t :=
    if t = "image/png" then .ok [".png"]
    else if t = "text/html" then .ok [".htm", ".html"]
    else if t = "video/mp4" then .ok [".m4v", ".mp4"]
    else .ok []
  ParseMediaType t :=
    if t = "" then .error "mime: no media type"
    else if t = "video/mp4; codecs=avc1" then .ok "video/mp4"
    else .ok t
  filepathJoin a b := a ++ "/" ++ b

/-- A world in which every call succeeds: the form holds one part named `field`
with header `h`, the store holds `v`, the random source delivers `rnd`.  A body
longer than the limit of `http.MaxBytesReader` makes the form read fail the way
`mime/multipart` reports it when the limit falls in the lines that follow the
part: the error of the limited reader wrapped by `NextPart`. -/
def okEnv (field : String) (h : FileHeader) (v : Video) (rnd : List Byte) : Env where
  ValidateJWT token secret :=
    if secret ≠ "secret" then .error "signature is invalid"
    else if token = "owner-token" then .ok ownerID
    else if token = "other-token" then .ok otherID
    else .error "token is malformed"
  ParseMultipartForm _ _ := none
  FormFile r name :=
    match r.Body.limit with
    | some n =>
        if n < r.Body.size then
          .error "multipart: NextPart: http: request body too large"
        else if name = field then .ok (⟨3⟩, h) else .error "http: no such file"
    | none => if name = field then .ok (⟨3⟩, h) else .error "http: no such file"
  GetVideo id := if id = v.ID then .ok v else .error "sql: no rows in result set"
  UpdateVideo _ := none
  randRead n :=
    { data := rnd.take n, n := min n rnd.length,
      err := if rnd.length < n then some "unexpected EOF" else none }
  osCreate _ := none
  ioCopy _ _ := none
  CreateTemp _ _ := .ok "/tmp/tubely-upload-2718281828.mp4"
  Seek _ := none
  PutObject _ := none

/-- A request for the sample video with the given credential and body length. -/
def sampleRequest (auth : String) (size : Nat) : Request :=
  { videoID := "6ba7b810-9dad-11d1-80b4-00c04fd430c8",
    Header := [("Authorization", auth)],
    Body := { size := size, limit := none } }

/-- The header of an uploaded part with the given declared type and size. -/
def partHeader (filename contentType : String) (size : Int) : FileHeader :=
  { Filename := filename, Header := [("Content-Type", contentType)], Size := size }

/-- The four random bytes of the sample runs. -/
def sampleRandom : List Byte := [0xde, 0xad, 0xbe, 0xef]

/-- A world in which the form holds a `thumbnail` part that declares `image/png`
and has the given size, and every call succeeds. -/
def pngEnv (size : Int) : Env :=
  okEnv "thumbnail" (partHeader "boots.png" "image/png" size) sampleVideo sampleRandom

/-- The world of `pngEnv`, except that the multipart form cannot be parsed. -/
def brokenFormEnv : Env :=
  { pngEnv 2048 with ParseMultipartForm := fun _ _ => some "multipart: NextPart: EOF" }

/-- A world in which the `thumbnail` part declares `text/html` and every call succeeds. -/
def htmlEnv : Env :=
  okEnv "thumbnail" (partHeader "page.html" "text/html" 512) sampleVideo sampleRandom

/-- A world in which the form holds a `video` part that declares the given type,
the store holds `v`, and every call succeeds. -/
def videoEnv (contentType : String) (size : Int) (v : Video) : Env :=
  okEnv "video" (partHeader "boots.bin" contentType size) v sampleRandom

/-- The world of a valid video upload in which the object-store put fails. -/
def putFailsEnv : Env :=
  { videoEnv "video/mp4" 5000 sampleVideo with
    PutObject := fun _ => some "RequestError: send request failed" }

/-- The world of `pngEnv` in which `rand.Read` fails and delivers nothing. -/
def randFailsEnv : Env :=
  { pngEnv 2048 with
    randRead := fun _ => { data := [], n := 0, err := some "unexpected EOF" } }

/-- The world of `pngEnv` in which `rand.Read` stops after two bytes, with the
error `io.ReadFull` gives for a short read. -/
def shortReadEnv : Env :=
  { pngEnv 2048 with
    randRead := fun _ => { data := [0xde, 0xad], n := 2, err := some "unexpected EOF" } }

/-- The world of `pngEnv` in which `UpdateVideo` fails. -/
def thumbnailUpdateFailsEnv : Env :=
  { pngEnv 2048 with UpdateVideo := fun _ => some "database is locked" }

/-- The world of a valid video upload in which `UpdateVideo` fails. -/
def videoUpdateFailsEnv : Env :=
  { videoEnv "video/mp4" 5000 sampleVideo with
    UpdateVideo := fun _ => some "database is locked" }

/-- The sample record after a first video upload. -/
def uploadedVideo : Video :=
  { sampleVideo with
    VideoURL := some
      "https://tubely-1234.s3.us-east-2.amazonaws.com/6ba7b810-9dad-11d1-80b4-00c04fd430c8.mp4" }

/-- The world of `pngEnv` with other random bytes. -/
def pngEnvAgain : Env :=
  okEnv "thumbnail" (partHeader "boots.png" "image/png" 2048) sampleVideo [1, 2, 3, 4]

/-! ## Observations distribute over concatenation -/

theorem responses_append (a b : List Event) :
    responses (a ++ b) = responses a ++ responses b := by
  induction a with
  | nil => rfl
  | cons e es ih => cases e <;> simp [responses, ih]

theorem created_append (a b : List Event) : created (a ++ b) = created a ++ created b := by
  induction a with
  | nil => rfl
  | cons e es ih => cases e <;> simp [created, ih]

theorem updates_append (a b : List Event) : updates (a ++ b) = updates a ++ updates b := by
  induction a with
  | nil => rfl
  | cons e es ih => cases e <;> simp [updates, ih]

theorem puts_append (a b : List Event) : puts (a ++ b) = puts a ++ puts b := by
  induction a with
  | nil => rfl
  | cons e es ih => cases e <;> simp [puts, ih]

/-- The warning about `UpdateVideo` writes no response. -/
theorem responses_warnUpdateFailed (err : Option String) :
    responses (warnUpdateFailed err) = [] := by
  cases err <;> rfl

/-- The warning about `UpdateVideo` creates no file. -/
theorem created_warnUpdateFailed (err : Option String) :
    created (warnUpdateFailed err) = [] := by
  cases err <;> rfl

/-- The warning about `UpdateVideo` updates no record. -/
theorem updates_warnUpdateFailed (err : Option String) :
    updates (warnUpdateFailed err) = [] := by
  cases err <;> rfl

/-- The warning about `UpdateVideo` puts no object. -/
theorem puts_warnUpdateFailed (err : Option String) :
    puts (warnUpdateFailed err) = [] := by
  cases err <;> rfl

/-- The extension step writes no response. -/
theorem responses_thumbnailExtension (lib : Lib) (t : String) :
    responses (thumbnailExtension lib t).2 = [] := by
  unfold thumbnailExtension
  split <;> rfl

/-- The extension step creates no file. -/
theorem created_thumbnailExtension (lib : Lib) (t : String) :
    created (thumbnailExtension lib t).2 = [] := by
  unfold thumbnailExtension
  split <;> rfl

/-- The extension step updates no record. -/
theorem updates_thumbnailExtension (lib : Lib) (t : String) :
    updates (thumbnailExtension lib t).2 = [] := by
  unfold thumbnailExtension
  split <;> rfl

/-! ## The guards of the thumbnail handler -/

/-- Past its guards, `handlerUploadThumbnail` is its storing section. -/
theorem handlerUploadThumbnail_authorized (lib : Lib) (cfg : apiConfig) (env : Env)
    (r : Request) (videoID : UUID) (token : String) (file : File) (header : FileHeader)
    (video : Video)
    (h1 : lib.uuidParse (r.PathValue "videoID") = .ok videoID)
    (h2 : lib.GetBearerToken r.Header = .ok token)
    (h3 : env.ValidateJWT token cfg.jwtSecret = .ok video.UserID)
    (h4 : env.ParseMultipartForm r maxMemory = none)
    (h5 : env.FormFile r "thumbnail" = .ok (file, header))
    (h6 : header.Header.Get "Content-Type" ≠ "")
    (h7 : env.GetVideo videoID = .ok video) :
    handlerUploadThumbnail lib cfg env r =
      thumbnailStore lib cfg env file (header.Header.Get "Content-Type") video := by
  simp [handlerUploadThumbnail, h1, h2, h3, h4, h5, h6, h7]

/-- A thumbnail upload answered with status 200 passed every guard. -/
theorem thumbnail_ok_inv (lib : Lib) (cfg : apiConfig) (env : Env) (r : Request)
    (h : responseStatus (handlerUploadThumbnail lib cfg env r) = some 200) :
    ∃ videoID token file header video,
      lib.uuidParse (r.PathValue "videoID") = .ok videoID ∧
      lib.GetBearerToken r.Header = .ok token ∧
      env.ValidateJWT token cfg.jwtSecret = .ok video.UserID ∧
      env.ParseMultipartForm r maxMemory = none ∧
      env.FormFile r "thumbnail" = .ok (file, header) ∧
      header.Header.Get "Content-Type" ≠ "" ∧
      env.GetVideo videoID = .ok video := by
  cases h1 : lib.uuidParse (r.PathValue "videoID") with
  | error e =>
    simp [handlerUploadThumbnail, h1, responseStatus, responses, respondWithError] at h
  | ok videoID =>
  cases h2 : lib.GetBearerToken r.Header with
  | error e =>
    simp [handlerUploadThumbnail, h1, h2, responseStatus, responses, respondWithError] at h
  | ok token =>
  cases h3 : env.ValidateJWT token cfg.jwtSecret with
  | error e =>
    simp [handlerUploadThumbnail, h1, h2, h3, responseStatus, responses, respondWithError] at h
  | ok userID =>
  cases h4 : env.ParseMultipartForm r maxMemory with
  | some e =>
    simp [handlerUploadThumbnail, h1, h2, h3, h4, responseStatus, responses,
      respondWithError] at h
  | none =>
  cases h5 : env.FormFile r "thumbnail" with
  | error e =>
    simp [handlerUploadThumbnail, h1, h2, h3, h4, h5, responseStatus, responses,
      respondWithError] at h
  | ok fh =>
  obtain ⟨file, header⟩ := fh
  by_cases h6 : header.Header.Get "Content-Type" = ""
  · simp [handlerUploadThumbnail, h1, h2, h3, h4, h5, h6, responseStatus, responses,
      respondWithError] at h
  cases h7 : env.GetVideo videoID with
  | error e =>
    simp [handlerUploadThumbnail, h1, h2, h3, h4, h5, h6, h7, responseStatus, responses,
      respondWithError] at h
  | ok video =>
  by_cases h8 : video.UserID = userID
  · subst h8
    exact ⟨videoID, token, file, header, video, rfl, rfl, h3, rfl, rfl, h6, h7⟩
  · simp [handlerUploadThumbnail, h1, h2, h3, h4, h5, h6, h7, h8, responseStatus, responses,
      respondWithError] at h

/-! ## The storing section of the thumbnail handler -/

/-- Status 200 from the storing section means the random read, the file
creation and the copy all succeeded. -/
theorem thumbnailStore_status_ok (lib : Lib) (cfg : apiConfig) (env : Env) (file : File)
    (mediaType : String) (video : Video)
    (h : responseStatus (thumbnailStore lib cfg env file mediaType video) = some 200) :
    (env.randRead 4).err = none ∧ (env.randRead 4).n = 4 ∧
    env.osCreate (thumbnailPath lib cfg env mediaType) = none ∧
    env.ioCopy (thumbnailPath lib cfg env mediaType) file = none := by
  unfold thumbnailStore at h
  unfold thumbnailPath thumbnailFilename
  cases h1 : (env.randRead 4).err <;>
  by_cases h2 : (env.randRead 4).n = 4 <;>
  cases h3 : env.osCreate (lib.filepathJoin cfg.assetsRoot
      (RawURLEncoding (readInto (makeBytes 4) (env.randRead 4).data)
        ++ (thumbnailExtension lib mediaType).1)) <;>
  cases h4 : env.ioCopy (lib.filepathJoin cfg.assetsRoot
      (RawURLEncoding (readInto (makeBytes 4) (env.randRead 4).data)
        ++ (thumbnailExtension lib mediaType).1)) file <;>
  simp [h1, h2, h3, h4, responseStatus, responses, responses_append,
    responses_thumbnailExtension, respondWithError, respondWithJSON] at h ⊢

/-- The record the storing section of the thumbnail handler builds in memory. -/
theorem thumbnailStore_of_ok (lib : Lib) (cfg : apiConfig) (env : Env) (file : File)
    (mediaType : String) (video : Video)
    (h1 : (env.randRead 4).err = none) (h2 : (env.randRead 4).n = 4)
    (h3 : env.osCreate (thumbnailPath lib cfg env mediaType) = none)
    (h4 : env.ioCopy (thumbnailPath lib cfg env mediaType) file = none) :
    responses (thumbnailStore lib cfg env file mediaType video) =
      [(200, Payload.video
        { video with
          ThumbnailURL := some ("http://localhost:" ++ cfg.port ++ "/assets/"
            ++ thumbnailFilename lib env mediaType) })] ∧
    created (thumbnailStore lib cfg env file mediaType video) =
      [thumbnailPath lib cfg env mediaType] ∧
    updates (thumbnailStore lib cfg env file mediaType video) =
      [{ video with
          ThumbnailURL := some ("http://localhost:" ++ cfg.port ++ "/assets/"
            ++ thumbnailFilename lib env mediaType) }] := by
  unfold thumbnailPath thumbnailFilename at h3 h4
  unfold thumbnailStore thumbnailPath thumbnailFilename
  simp [h1, h2, h3, h4, responses, responses_append, responses_thumbnailExtension,
    created, created_append, created_thumbnailExtension, updates, updates_append,
    updates_thumbnailExtension, respondWithJSON, responses_warnUpdateFailed,
    created_warnUpdateFailed, updates_warnUpdateFailed]

/-- The storing section always calls `os.Create`, once, whatever the declared type. -/
theorem created_thumbnailStore (lib : Lib) (cfg : apiConfig) (env : Env) (file : File)
    (mediaType : String) (video : Video) :
    created (thumbnailStore lib cfg env file mediaType video) =
      [thumbnailPath lib cfg env mediaType] := by
  unfold thumbnailStore thumbnailPath thumbnailFilename
  cases h3 : env.osCreate (lib.filepathJoin cfg.assetsRoot
      (RawURLEncoding (readInto (makeBytes 4) (env.randRead 4).data)
        ++ (thumbnailExtension lib mediaType).1)) <;>
  cases h4 : env.ioCopy (lib.filepathJoin cfg.assetsRoot
      (RawURLEncoding (readInto (makeBytes 4) (env.randRead 4).data)
        ++ (thumbnailExtension lib mediaType).1)) file <;>
  simp only [h3, h4] <;>
  · simp only [created_append, created_thumbnailExtension, created_warnUpdateFailed]
    split <;> split <;> simp [created, respondWithError, respondWithJSON]

/-! ## The guards of the video handler -/

/-- With the caller authenticated and the record loaded, `handlerUploadVideo`
is decided by the ownership test and then by the form read. -/
theorem handlerUploadVideo_loaded (lib : Lib) (cfg : apiConfig) (env : Env) (r : Request)
    (videoID userID : UUID) (token : String) (video : Video)
    (h1 : lib.uuidParse (r.PathValue "videoID") = .ok videoID)
    (h2 : lib.GetBearerToken r.Header = .ok token)
    (h3 : env.ValidateJWT token cfg.jwtSecret = .ok userID)
    (h4 : env.GetVideo videoID = .ok video) :
    handlerUploadVideo lib cfg env r =
      if video.UserID ≠ userID then [respondWithError 401 "User is not the video owner"]
      else
        match env.FormFile { r with Body := MaxBytesReader r.Body maxUploadSize } "video" with
        | .error e =>
            if e = "http: request body too large" then
              [respondWithError 413
                ("Video file exceeds the limit of " ++ toString maxUploadSize ++ " bytes")]
            else
              [respondWithError 400 "Couldn\x27t read \x27video\x27 file from form"]
        | .ok (file, header) =>
            match lib.ParseMediaType (header.Header.Get "Content-Type") with
            | .error _ =>
                [respondWithError 400 "Invalid Content-Type header format",
                 Event.FileClose file]
            | .ok baseType =>
                if baseType ≠ expectedMIMEType then
                  [respondWithError 400
                    ("Invalid video format: expected " ++ expectedMIMEType ++ ", got "
                      ++ baseType),
                   Event.FileClose file]
                else videoStore cfg env videoID video file header baseType := by
  simp only [handlerUploadVideo, h1, h2, h3, h4]

/-- A video upload answered with status 200 passed every guard. -/
theorem video_ok_inv (lib : Lib) (cfg : apiConfig) (env : Env) (r : Request)
    (h : responseStatus (handlerUploadVideo lib cfg env r) = some 200) :
    ∃ videoID token video file header,
      lib.uuidParse (r.PathValue "videoID") = .ok videoID ∧
      lib.GetBearerToken r.Header = .ok token ∧
      env.ValidateJWT token cfg.jwtSecret = .ok video.UserID ∧
      env.GetVideo videoID = .ok video ∧
      env.FormFile { r with Body := MaxBytesReader r.Body maxUploadSize } "video"
        = .ok (file, header) ∧
      lib.ParseMediaType (header.Header.Get "Content-Type") = .ok "video/mp4" ∧
      handlerUploadVideo lib cfg env r =
        videoStore cfg env videoID video file header "video/mp4" := by
  cases h1 : lib.uuidParse (r.PathValue "videoID") with
  | error e =>
    simp [handlerUploadVideo, h1, responseStatus, responses, respondWithError] at h
  | ok videoID =>
  cases h2 : lib.GetBearerToken r.Header with
  | error e =>
    simp [handlerUploadVideo, h1, h2, responseStatus, responses, respondWithError] at h
  | ok token =>
  cases h3 : env.ValidateJWT token cfg.jwtSecret with
  | error e =>
    simp [handlerUploadVideo, h1, h2, h3, responseStatus, responses, respondWithError] at h
  | ok userID =>
  cases h4 : env.GetVideo videoID with
  | error e =>
    simp [handlerUploadVideo, h1, h2, h3, h4, responseStatus, responses,
      respondWithError] at h
  | ok video =>
  rw [handlerUploadVideo_loaded lib cfg env r videoID userID token video h1 h2 h3 h4] at h ⊢
  by_cases h5 : video.UserID = userID
  swap
  · simp [h5, responseStatus, responses, respondWithError] at h
  subst h5
  cases h6 : env.FormFile { r with Body := MaxBytesReader r.Body maxUploadSize } "video" with
  | error e =>
    by_cases h7 : e = "http: request body too large" <;>
    simp [h6, h7, responseStatus, responses, respondWithError] at h
  | ok fh =>
  obtain ⟨file, header⟩ := fh
  cases h7 : lib.ParseMediaType (header.Header.Get "Content-Type") with
  | error e => simp [h6, h7, responseStatus, responses, respondWithError] at h
  | ok baseType =>
  by_cases h8 : baseType = expectedMIMEType
  swap
  · simp [h6, h7, h8, responseStatus, responses, respondWithError] at h
  subst h8
  refine ⟨videoID, token, video, file, header, rfl, rfl, h3, h4, rfl, h7, ?_⟩
  simp [h7, expectedMIMEType]

/-! ## The storing section of the video handler -/

/-- Status 200 from the storing section means the temporary file, the copy,
the rewind and the put all succeeded. -/
theorem videoStore_status_ok (cfg : apiConfig) (env : Env) (videoID : UUID) (video : Video)
    (file : File) (header : FileHeader)
    (h : responseStatus (videoStore cfg env videoID video file header "video/mp4")
      = some 200) :
    ∃ name, env.CreateTemp "" "tubely-upload-*.mp4" = .ok name ∧
      env.ioCopy name file = none ∧ env.Seek name = none ∧
      env.PutObject (videoPutInput cfg videoID name header) = none := by
  unfold videoStore at h
  cases h1 : env.CreateTemp "" "tubely-upload-*.mp4" with
  | error e => simp [h1, responseStatus, responses, respondWithError] at h
  | ok name =>
  cases h2 : env.ioCopy name file with
  | some e => simp [h1, h2, responseStatus, responses, respondWithError] at h
  | none =>
  cases h3 : env.Seek name with
  | some e => simp [h1, h2, h3, responseStatus, responses, respondWithError] at h
  | none =>
  cases h4 : env.PutObject (videoPutInput cfg videoID name header) with
  | some e =>
    have h5 := h4
    unfold videoPutInput at h5
    simp [h1, h2, h3, h5, responseStatus, responses, respondWithError] at h
  | none => exact ⟨name, rfl, h2, h3, h4⟩

/-- The trace of the storing section of the video handler when every step up
to the put succeeds. -/
theorem videoStore_of_ok (cfg : apiConfig) (env : Env) (videoID : UUID) (video : Video)
    (file : File) (header : FileHeader) (name : String)
    (h1 : env.CreateTemp "" "tubely-upload-*.mp4" = .ok name)
    (h2 : env.ioCopy name file = none) (h3 : env.Seek name = none)
    (h4 : env.PutObject (videoPutInput cfg videoID name header) = none) :
    videoStore cfg env videoID video file header "video/mp4" =
      [Event.CreateTemp "" "tubely-upload-*.mp4" (.ok name), Event.IoCopy name file none,
       Event.Seek name none, Event.PutObject (videoPutInput cfg videoID name header) none,
       Event.UpdateVideo
        { video with
          VideoURL := some ("https://" ++ cfg.s3Bucket ++ ".s3." ++ cfg.s3Region
            ++ ".amazonaws.com/" ++ (videoID.String ++ ".mp4")) }
        (env.UpdateVideo
          { video with
            VideoURL := some ("https://" ++ cfg.s3Bucket ++ ".s3." ++ cfg.s3Region
              ++ ".amazonaws.com/" ++ (videoID.String ++ ".mp4")) })]
      ++ warnUpdateFailed (env.UpdateVideo
          { video with
            VideoURL := some ("https://" ++ cfg.s3Bucket ++ ".s3." ++ cfg.s3Region
              ++ ".amazonaws.com/" ++ (videoID.String ++ ".mp4")) })
      ++ [respondWithJSON 200
          { video with
            VideoURL := some ("https://" ++ cfg.s3Bucket ++ ".s3." ++ cfg.s3Region
              ++ ".amazonaws.com/" ++ (videoID.String ++ ".mp4")) }]
      ++ videoCleanup name file := by
  unfold videoPutInput at h4
  unfold videoStore videoPutInput
  simp [h1, h2, h3, h4]

/-! ## The statuses of the thumbnail handler -/

/-- The storing section of the thumbnail handler answers 500 or 200. -/
theorem thumbnailStore_status (lib : Lib) (cfg : apiConfig) (env : Env) (file : File)
    (mediaType : String) (video : Video) :
    responseStatus (thumbnailStore lib cfg env file mediaType video) = some 500 ∨
    responseStatus (thumbnailStore lib cfg env file mediaType video) = some 200 := by
  unfold thumbnailStore
  cases h1 : (env.randRead 4).err <;>
  by_cases h2 : (env.randRead 4).n = 4 <;>
  cases h3 : env.osCreate (lib.filepathJoin cfg.assetsRoot
      (RawURLEncoding (readInto (makeBytes 4) (env.randRead 4).data)
        ++ (thumbnailExtension lib mediaType).1)) <;>
  cases h4 : env.ioCopy (lib.filepathJoin cfg.assetsRoot
      (RawURLEncoding (readInto (makeBytes 4) (env.randRead 4).data)
        ++ (thumbnailExtension lib mediaType).1)) file <;>
  simp [h1, h2, h3, h4, responseStatus, responses, responses_append,
    responses_thumbnailExtension, responses_warnUpdateFailed, respondWithError,
    respondWithJSON]

/-- The thumbnail handler answers 400, 401, 500 or 200, and nothing else. -/
theorem thumbnail_status (lib : Lib) (cfg : apiConfig) (env : Env) (r : Request) :
    responseStatus (handlerUploadThumbnail lib cfg env r) = some 400 ∨
    responseStatus (handlerUploadThumbnail lib cfg env r) = some 401 ∨
    responseStatus (handlerUploadThumbnail lib cfg env r) = some 500 ∨
    responseStatus (handlerUploadThumbnail lib cfg env r) = some 200 := by
  cases h1 : lib.uuidParse (r.PathValue "videoID") with
  | error e => simp [handlerUploadThumbnail, h1, responseStatus, responses, respondWithError]
  | ok videoID =>
  cases h2 : lib.GetBearerToken r.Header with
  | error e =>
    simp [handlerUploadThumbnail, h1, h2, responseStatus, responses, respondWithError]
  | ok token =>
  cases h3 : env.ValidateJWT token cfg.jwtSecret with
  | error e =>
    simp [handlerUploadThumbnail, h1, h2, h3, responseStatus, responses, respondWithError]
  | ok userID =>
  cases h4 : env.ParseMultipartForm r maxMemory with
  | some e =>
    simp [handlerUploadThumbnail, h1, h2, h3, h4, responseStatus, responses,
      respondWithError]
  | none =>
  cases h5 : env.FormFile r "thumbnail" with
  | error e =>
    simp [handlerUploadThumbnail, h1, h2, h3, h4, h5, responseStatus, responses,
      respondWithError]
  | ok fh =>
  obtain ⟨file, header⟩ := fh
  by_cases h6 : header.Header.Get "Content-Type" = ""
  · simp [handlerUploadThumbnail, h1, h2, h3, h4, h5, h6, responseStatus, responses,
      respondWithError]
  cases h7 : env.GetVideo videoID with
  | error e =>
    simp [handlerUploadThumbnail, h1, h2, h3, h4, h5, h6, h7, responseStatus, responses,
      respondWithError]
  | ok video =>
  by_cases h8 : video.UserID = userID
  · subst h8
    rw [handlerUploadThumbnail_authorized lib cfg env r videoID token file header video
      h1 h2 h3 h4 h5 h6 h7]
    rcases thumbnailStore_status lib cfg env file (header.Header.Get "Content-Type") video
      with h | h <;> simp [h]
  · simp [handlerUploadThumbnail, h1, h2, h3, h4, h5, h6, h7, h8, responseStatus, responses,
      respondWithError]

/-! ## C1: uploads by a caller who does not own the video -/

/-- C1, as stated, fails: a caller who does not own the sample video sends the
thumbnail endpoint a form that cannot be parsed, and the answer is 500, not 401,
because `handlerUploadThumbnail` reads the form before it loads the record. -/
theorem nonowner_thumbnail_unparsable_form :
    sampleLib.uuidParse ((sampleRequest "Bearer other-token" 4096).PathValue "videoID")
      = .ok sampleID ∧
    sampleLib.GetBearerToken (sampleRequest "Bearer other-token" 4096).Header
      = .ok "other-token" ∧
    brokenFormEnv.ValidateJWT "other-token" sampleCfg.jwtSecret = .ok otherID ∧
    brokenFormEnv.GetVideo sampleID = .ok sampleVideo ∧
    sampleVideo.UserID ≠ otherID ∧
    responseStatus (handlerUploadThumbnail sampleLib sampleCfg brokenFormEnv
      (sampleRequest "Bearer other-token" 4096)) = some 500 := by
  decide

/-- C1, amended: when the video ID parses, the credential validates to a user and
the record loads with another owner, `handlerUploadVideo` answers 401 with that
single response and no storage write, whatever the body; `handlerUploadThumbnail`
makes no storage write and writes one response, whose status is 500 for a form
that cannot be parsed, 400 for a missing field or an empty Content-Type, and 401
otherwise. -/
theorem nonowner_upload_rejected (lib : Lib) (cfg : apiConfig) (env : Env) (r : Request)
    (videoID userID : UUID) (token : String) (video : Video)
    (h1 : lib.uuidParse (r.PathValue "videoID") = .ok videoID)
    (h2 : lib.GetBearerToken r.Header = .ok token)
    (h3 : env.ValidateJWT token cfg.jwtSecret = .ok userID)
    (h4 : env.GetVideo videoID = .ok video)
    (h5 : video.UserID ≠ userID) :
    handlerUploadVideo lib cfg env r = [respondWithError 401 "User is not the video owner"] ∧
    responseStatus (handlerUploadVideo lib cfg env r) = some 401 ∧
    storageWrites (handlerUploadVideo lib cfg env r) = [] ∧
    storageWrites (handlerUploadThumbnail lib cfg env r) = [] ∧
    (responses (handlerUploadThumbnail lib cfg env r)).length = 1 ∧
    responseStatus (handlerUploadThumbnail lib cfg env r) =
      (match env.ParseMultipartForm r maxMemory with
       | some _ => some 500
       | none =>
         match env.FormFile r "thumbnail" with
         | .error _ => some 400
         | .ok (_, header) =>
           if header.Header.Get "Content-Type" = "" then some 400 else some 401) := by
  have hv : handlerUploadVideo lib cfg env r
      = [respondWithError 401 "User is not the video owner"] := by
    rw [handlerUploadVideo_loaded lib cfg env r videoID userID token video h1 h2 h3 h4]
    simp [h5]
  refine ⟨hv, ?_, ?_, ?_⟩
  · rw [hv]; rfl
  · rw [hv]; rfl
  cases h6 : env.ParseMultipartForm r maxMemory with
  | some e =>
    simp [handlerUploadThumbnail, h1, h2, h3, h6, responseStatus, responses,
      respondWithError, storageWrites, Event.isStorageWrite]
  | none =>
  cases h7 : env.FormFile r "thumbnail" with
  | error e =>
    simp [handlerUploadThumbnail, h1, h2, h3, h6, h7, responseStatus, responses,
      respondWithError, storageWrites, Event.isStorageWrite]
  | ok fh =>
  obtain ⟨file, header⟩ := fh
  by_cases h8 : header.Header.Get "Content-Type" = ""
  · simp [handlerUploadThumbnail, h1, h2, h3, h6, h7, h8, responseStatus, responses,
      respondWithError, storageWrites, Event.isStorageWrite]
  · simp [handlerUploadThumbnail, h1, h2, h3, h4, h5, h6, h7, h8, responseStatus, responses,
      respondWithError, storageWrites, Event.isStorageWrite]

/-- C1, amended, on the sample deployment: the other user uploads a PNG for the
owner's video to both endpoints. -/
theorem nonowner_upload_rejected_witness :
    handlerUploadVideo sampleLib sampleCfg (pngEnv 2048)
        (sampleRequest "Bearer other-token" 4096)
      = [respondWithError 401 "User is not the video owner"] ∧
    responseStatus (handlerUploadThumbnail sampleLib sampleCfg (pngEnv 2048)
        (sampleRequest "Bearer other-token" 4096)) = some 401 ∧
    storageWrites (handlerUploadThumbnail sampleLib sampleCfg (pngEnv 2048)
        (sampleRequest "Bearer other-token" 4096)) = [] :=
  have h := nonowner_upload_rejected sampleLib sampleCfg (pngEnv 2048)
    (sampleRequest "Bearer other-token" 4096) sampleID otherID "other-token" sampleVideo
    (by decide) (by decide) (by decide) (by decide) (by decide)
  ⟨h.1, by decide, h.2.2.2.1⟩

/-! ## The token of the thumbnail file name -/

/-- The buffer keeps its length through `rand.Read`. -/
theorem readInto_length (buf data : List Byte) :
    (readInto buf data).length = buf.length := by
  unfold readInto
  simp only [List.length_append, List.length_take, List.length_drop]
  omega

theorem length_four (l : List Byte) (h : l.length = 4) : ∃ a b c d, l = [a, b, c, d] := by
  match l, h with
  | [a, b, c, d], _ => exact ⟨a, b, c, d, rfl⟩

theorem rawURLChars_four (a b c d : Byte) :
    rawURLChars [a, b, c, d] =
      [b64Char (a.val / 4), b64Char ((a.val % 4) * 16 + b.val / 16),
       b64Char ((b.val % 16) * 4 + c.val / 64), b64Char (c.val % 64),
       b64Char (d.val / 4), b64Char ((d.val % 4) * 16)] := by
  simp [rawURLChars]

/-- Four octets encode to six characters. -/
theorem RawURLEncoding_length (l : List Byte) (h : l.length = 4) :
    (RawURLEncoding l).length = 6 := by
  obtain ⟨a, b, c, d, rfl⟩ := length_four l h
  simp [RawURLEncoding, rawURLChars_four, String.length]

set_option maxRecDepth 100000 in
theorem b64Char_injective : ∀ i j : Fin 64, b64Char i.val = b64Char j.val → i = j := by
  decide

theorem b64Char_inj (i j : Nat) (hi : i < 64) (hj : j < 64) (h : b64Char i = b64Char j) :
    i = j :=
  congrArg Fin.val (b64Char_injective ⟨i, hi⟩ ⟨j, hj⟩ h)

/-- Two different four-octet buffers have different tokens. -/
theorem RawURLEncoding_injective (l m : List Byte) (hl : l.length = 4) (hm : m.length = 4)
    (h : RawURLEncoding l = RawURLEncoding m) : l = m := by
  obtain ⟨a, b, c, d, rfl⟩ := length_four l hl
  obtain ⟨a', b', c', d', rfl⟩ := length_four m hm
  have h' := congrArg String.data h
  simp only [RawURLEncoding, rawURLChars_four, List.cons.injEq] at h'
  obtain ⟨e1, e2, e3, e4, e5, e6, _⟩ := h'
  have ha := a.isLt
  have hb := b.isLt
  have hc := c.isLt
  have hd := d.isLt
  have ha' := a'.isLt
  have hb' := b'.isLt
  have hc' := c'.isLt
  have hd' := d'.isLt
  have f1 := b64Char_inj _ _ (by omega) (by omega) e1
  have f2 := b64Char_inj _ _ (by omega) (by omega) e2
  have f3 := b64Char_inj _ _ (by omega) (by omega) e3
  have f4 := b64Char_inj _ _ (by omega) (by omega) e4
  have f5 := b64Char_inj _ _ (by omega) (by omega) e5
  have f6 := b64Char_inj _ _ (by omega) (by omega) e6
  have g1 : a = a' := Fin.ext (by omega)
  have g2 : b = b' := Fin.ext (by omega)
  have g3 : c = c' := Fin.ext (by omega)
  have g4 : d = d' := Fin.ext (by omega)
  rw [g1, g2, g3, g4]

/-! ## C2: the byte ceiling -/

/-- C2, as stated, fails: the owner uploads a thumbnail in a body of 11 MiB, above
the 10 MiB of `maxMemory`, and the answer is 200, not 413: `maxMemory` is the
in-memory threshold handed to `ParseMultipartForm`, not a ceiling on the body. -/
theorem thumbnail_over_ceiling_accepted :
    maxMemory < (sampleRequest "Bearer owner-token" 11534336).Body.size ∧
    responseStatus (handlerUploadThumbnail sampleLib sampleCfg (pngEnv 11534000)
      (sampleRequest "Bearer owner-token" 11534336)) = some 200 := by
  decide

/-- C2, amended: an authenticated thumbnail upload is never answered 413,
whatever the size of its body.  `handlerUploadThumbnail` sets no ceiling on the
body: a form the reader fails to parse, for its size or for anything else, is
answered 500 in a single response, and a form that parses goes on to the later
steps, which answer 400, 401, 500 or 200. -/
theorem thumbnail_no_ceiling (lib : Lib) (cfg : apiConfig) (env : Env) (r : Request)
    (videoID userID : UUID) (token : String)
    (h1 : lib.uuidParse (r.PathValue "videoID") = .ok videoID)
    (h2 : lib.GetBearerToken r.Header = .ok token)
    (h3 : env.ValidateJWT token cfg.jwtSecret = .ok userID) :
    responseStatus (handlerUploadThumbnail lib cfg env r) ≠ some 413 ∧
    (∀ e, env.ParseMultipartForm r maxMemory = some e →
      handlerUploadThumbnail lib cfg env r =
        [respondWithError 500 "Couldn\x27t parse form data"]) ∧
    (env.ParseMultipartForm r maxMemory = none →
      responseStatus (handlerUploadThumbnail lib cfg env r) = some 400 ∨
      responseStatus (handlerUploadThumbnail lib cfg env r) = some 401 ∨
      responseStatus (handlerUploadThumbnail lib cfg env r) = some 500 ∨
      responseStatus (handlerUploadThumbnail lib cfg env r) = some 200) := by
  refine ⟨?_, ?_, ?_⟩
  · rcases thumbnail_status lib cfg env r with h | h | h | h <;> simp [h]
  · intro e he
    simp [handlerUploadThumbnail, h1, h2, h3, he]
  · intro _
    exact thumbnail_status lib cfg env r

/-- C2, amended, on the sample deployment: the owner's thumbnail in a body of
11 MiB, and the same body when the form reader gives up on it. -/
theorem thumbnail_no_ceiling_witness :
    responseStatus (handlerUploadThumbnail sampleLib sampleCfg (pngEnv 11534000)
      (sampleRequest "Bearer owner-token" 11534336)) ≠ some 413 ∧
    handlerUploadThumbnail sampleLib sampleCfg brokenFormEnv
        (sampleRequest "Bearer owner-token" 11534336) =
      [respondWithError 500 "Couldn\x27t parse form data"] :=
  ⟨(thumbnail_no_ceiling sampleLib sampleCfg (pngEnv 11534000)
      (sampleRequest "Bearer owner-token" 11534336) sampleID ownerID "owner-token"
      (by decide) (by decide) (by decide)).1,
   (thumbnail_no_ceiling sampleLib sampleCfg brokenFormEnv
      (sampleRequest "Bearer owner-token" 11534336) sampleID ownerID "owner-token"
      (by decide) (by decide) (by decide)).2.1 "multipart: NextPart: EOF" (by decide)⟩

/-- The test of line 59 compares the whole error text with the text of the
limited reader.  When the owner sends the video endpoint a body one byte longer
than 1 GiB, the form reader reports that error wrapped by `NextPart`, the
comparison fails, and the answer is 400, the status of any other form error. -/
theorem video_over_ceiling_wrapped_error :
    maxUploadSize < (sampleRequest "Bearer owner-token" 1073741825).Body.size ∧
    handlerUploadVideo sampleLib sampleCfg (videoEnv "video/mp4" 1073741000 sampleVideo)
        (sampleRequest "Bearer owner-token" 1073741825) =
      [respondWithError 400 "Couldn\x27t read \x27video\x27 file from form"] := by
  decide

/-! ## C3: the declared type of a thumbnail -/

/-- C3, as stated, fails: the owner uploads a thumbnail whose part declares
`text/html`; the answer is 200, the file `assets/3q2-7w.htm` is created and the
record gets its URL.  `handlerUploadThumbnail` has no allow-list. -/
theorem thumbnail_text_html_accepted :
    responseStatus (handlerUploadThumbnail sampleLib sampleCfg htmlEnv
      (sampleRequest "Bearer owner-token" 1024)) = some 200 ∧
    created (handlerUploadThumbnail sampleLib sampleCfg htmlEnv
      (sampleRequest "Bearer owner-token" 1024)) = ["assets/3q2-7w.htm"] ∧
    updates (handlerUploadThumbnail sampleLib sampleCfg htmlEnv
      (sampleRequest "Bearer owner-token" 1024)) =
      [{ sampleVideo with
         ThumbnailURL := some "http://localhost:8091/assets/3q2-7w.htm" }] := by
  decide

/-- C3, amended: for an authorized thumbnail upload whose `thumbnail` field is
present, the only test on the declared type is that it is not empty.  An empty
type is answered 400 with no file created and no record updated; every other
type, allow-listed or not, goes on to `os.Create`, with the first extension that
`mime.ExtensionsByType` gives for it, or `.jpg`. -/
theorem thumbnail_content_type_gate (lib : Lib) (cfg : apiConfig) (env : Env)
    (r : Request) (videoID : UUID) (token : String) (file : File) (header : FileHeader)
    (video : Video)
    (h1 : lib.uuidParse (r.PathValue "videoID") = .ok videoID)
    (h2 : lib.GetBearerToken r.Header = .ok token)
    (h3 : env.ValidateJWT token cfg.jwtSecret = .ok video.UserID)
    (h4 : env.ParseMultipartForm r maxMemory = none)
    (h5 : env.FormFile r "thumbnail" = .ok (file, header))
    (h7 : env.GetVideo videoID = .ok video) :
    (header.Header.Get "Content-Type" = "" →
      handlerUploadThumbnail lib cfg env r =
        [respondWithError 400 "Missing Content-Type header", Event.FileClose file,
         Event.RemoveAll]) ∧
    (header.Header.Get "Content-Type" ≠ "" →
      created (handlerUploadThumbnail lib cfg env r) =
        [lib.filepathJoin cfg.assetsRoot
          (RawURLEncoding (readInto (makeBytes 4) (env.randRead 4).data)
            ++ (thumbnailExtension lib (header.Header.Get "Content-Type")).1)]) := by
  constructor
  · intro h6
    simp [handlerUploadThumbnail, h1, h2, h3, h4, h5, h6]
  · intro h6
    rw [handlerUploadThumbnail_authorized lib cfg env r videoID token file header video
      h1 h2 h3 h4 h5 h6 h7]
    exact created_thumbnailStore lib cfg env file (header.Header.Get "Content-Type") video

/-- C3, amended, on the sample deployment: a part that declares `application/pdf`,
for which the sample table has no extension, is stored as `.jpg`. -/
theorem thumbnail_content_type_gate_witness :
    created (handlerUploadThumbnail sampleLib sampleCfg
      (okEnv "thumbnail" (partHeader "paper.pdf" "application/pdf" 512) sampleVideo
        sampleRandom)
      (sampleRequest "Bearer owner-token" 1024)) = ["assets/3q2-7w.jpg"] :=
  ((thumbnail_content_type_gate sampleLib sampleCfg
      (okEnv "thumbnail" (partHeader "paper.pdf" "application/pdf" 512) sampleVideo
        sampleRandom)
      (sampleRequest "Bearer owner-token" 1024) sampleID "owner-token" ⟨3⟩
      (partHeader "paper.pdf" "application/pdf" 512) sampleVideo
      (by decide) (by decide) (by decide) (by decide) (by decide) (by decide)).2
    (by decide)).trans (by decide)

/-! ## C4: the declared type of a video -/

/-- The storing section of the video handler starts by calling `os.CreateTemp`. -/
theorem videoStore_head (cfg : apiConfig) (env : Env) (videoID : UUID) (video : Video)
    (file : File) (header : FileHeader) (baseType : String) :
    ∃ res, Event.CreateTemp "" "tubely-upload-*.mp4" res
      ∈ videoStore cfg env videoID video file header baseType := by
  unfold videoStore
  cases h1 : env.CreateTemp "" "tubely-upload-*.mp4" with
  | error e => exact ⟨.error e, by simp⟩
  | ok name =>
    refine ⟨.ok name, ?_⟩
    simp only []
    split
    · simp
    · split
      · simp
      · split <;> simp

/-- C4: for an authorized video upload whose `video` field is present, the
handler goes on to create its temporary file if and only if `mime.ParseMediaType`
returns, for the declared Content-Type, the base type `video/mp4`; for every other
declared type the answer is 400, in a single response, with no storage write:
no temporary file exists afterwards, no put is issued, `UpdateVideo` is not called. -/
theorem video_media_type_validation (lib : Lib) (cfg : apiConfig) (env : Env)
    (r : Request) (videoID : UUID) (token : String) (video : Video) (file : File)
    (header : FileHeader)
    (h1 : lib.uuidParse (r.PathValue "videoID") = .ok videoID)
    (h2 : lib.GetBearerToken r.Header = .ok token)
    (h3 : env.ValidateJWT token cfg.jwtSecret = .ok video.UserID)
    (h4 : env.GetVideo videoID = .ok video)
    (h5 : env.FormFile { r with Body := MaxBytesReader r.Body maxUploadSize } "video"
      = .ok (file, header)) :
    ((∃ res, Event.CreateTemp "" "tubely-upload-*.mp4" res
        ∈ handlerUploadVideo lib cfg env r) ↔
      lib.ParseMediaType (header.Header.Get "Content-Type") = .ok "video/mp4") ∧
    (lib.ParseMediaType (header.Header.Get "Content-Type") ≠ .ok "video/mp4" →
      responseStatus (handlerUploadVideo lib cfg env r) = some 400 ∧
      (responses (handlerUploadVideo lib cfg env r)).length = 1 ∧
      storageWrites (handlerUploadVideo lib cfg env r) = [] ∧
      tempFiles [] (handlerUploadVideo lib cfg env r) = [] ∧
      puts (handlerUploadVideo lib cfg env r) = [] ∧
      updates (handlerUploadVideo lib cfg env r) = []) := by
  rw [handlerUploadVideo_loaded lib cfg env r videoID video.UserID token video h1 h2 h3 h4]
  simp only [h5, ne_eq, not_true_eq_false, if_false]
  cases h6 : lib.ParseMediaType (header.Header.Get "Content-Type") with
  | error e =>
    simp [responseStatus, responses, respondWithError, storageWrites,
      Event.isStorageWrite, tempFiles, puts, updates]
  | ok baseType =>
    by_cases h7 : baseType = "video/mp4"
    · subst h7
      simp only [expectedMIMEType, not_true_eq_false, if_false, iff_true,
        false_implies, and_true]
      exact videoStore_head cfg env videoID video file header "video/mp4"
    · simp [h7, expectedMIMEType, responseStatus, responses, respondWithError,
        storageWrites, Event.isStorageWrite, tempFiles, puts, updates]

/-- C4 on the sample deployment: the owner uploads a part that declares `video/webm`. -/
theorem video_media_type_validation_witness :
    responseStatus (handlerUploadVideo sampleLib sampleCfg
        (videoEnv "video/webm" 5000 sampleVideo)
        (sampleRequest "Bearer owner-token" 5500)) = some 400 ∧
    tempFiles [] (handlerUploadVideo sampleLib sampleCfg
        (videoEnv "video/webm" 5000 sampleVideo)
        (sampleRequest "Bearer owner-token" 5500)) = [] :=
  have h := (video_media_type_validation sampleLib sampleCfg
    (videoEnv "video/webm" 5000 sampleVideo) (sampleRequest "Bearer owner-token" 5500)
    sampleID "owner-token" sampleVideo ⟨3⟩ (partHeader "boots.bin" "video/webm" 5000)
    (by decide) (by decide) (by decide) (by decide) (by decide)).2 (by decide)
  ⟨h.1, h.2.2.2.1⟩

/-! ## C5: the URL of an uploaded thumbnail -/

/-- The extension of a declared type the table knows is its first entry. -/
theorem thumbnailExtension_fst (lib : Lib) (mediaType e : String) (es : List String)
    (h : lib.ExtensionsByType mediaType = .ok (e :: es)) :
    (thumbnailExtension lib mediaType).1 = e := by
  simp [thumbnailExtension, h]

/-- C5, as stated, fails: the owner uploads a 2 MiB `image/png`; the answer is 200
and the URL is `http://localhost:8091/assets/3q2-7w.png`, whose token, the
encoding of the four random bytes, has 6 characters, not 12. -/
theorem thumbnail_png_token_six :
    responses (handlerUploadThumbnail sampleLib sampleCfg (pngEnv 2097152)
      (sampleRequest "Bearer owner-token" 2097700)) =
      [(200, Payload.video
        { sampleVideo with
          ThumbnailURL := some "http://localhost:8091/assets/3q2-7w.png" })] ∧
    RawURLEncoding (readInto (makeBytes 4) ((pngEnv 2097152).randRead 4).data) = "3q2-7w" ∧
    (RawURLEncoding (readInto (makeBytes 4) ((pngEnv 2097152).randRead 4).data)).length
      ≠ 12 := by
  decide

/-- C5, amended: every thumbnail upload answered 200 returns, in a single
response, the record loaded by `GetVideo` with its thumbnailURL set to
`http://localhost:` + port + `/assets/` + token + extension, where the host is the
literal `localhost`, token is the unpadded URL-safe encoding of the four-byte
buffer filled by `rand.Read` and is exactly 6 characters long, and extension is
the first one `mime.ExtensionsByType` gives for the declared type. -/
theorem thumbnail_success_url (lib : Lib) (cfg : apiConfig) (env : Env) (r : Request)
    (h : responseStatus (handlerUploadThumbnail lib cfg env r) = some 200) :
    ∃ videoID video file header token extension,
      lib.uuidParse (r.PathValue "videoID") = .ok videoID ∧
      env.GetVideo videoID = .ok video ∧
      env.FormFile r "thumbnail" = .ok (file, header) ∧
      (env.randRead 4).err = none ∧ (env.randRead 4).n = 4 ∧
      token = RawURLEncoding (readInto (makeBytes 4) (env.randRead 4).data) ∧
      token.length = 6 ∧
      extension = (thumbnailExtension lib (header.Header.Get "Content-Type")).1 ∧
      (∀ e es, lib.ExtensionsByType (header.Header.Get "Content-Type") = .ok (e :: es) →
        extension = e) ∧
      responses (handlerUploadThumbnail lib cfg env r) =
        [(200, Payload.video
          { video with
            ThumbnailURL := some ("http://" ++ "localhost" ++ ":" ++ cfg.port ++ "/assets/"
              ++ token ++ extension) })] := by
  obtain ⟨videoID, token, file, header, video, h1, h2, h3, h4, h5, h6, h7⟩ :=
    thumbnail_ok_inv lib cfg env r h
  have heq := handlerUploadThumbnail_authorized lib cfg env r videoID token file header
    video h1 h2 h3 h4 h5 h6 h7
  rw [heq] at h
  obtain ⟨g1, g2, g3, g4⟩ :=
    thumbnailStore_status_ok lib cfg env file (header.Header.Get "Content-Type") video h
  refine ⟨videoID, video, file, header, _, _, h1, h7, h5, g1, g2, rfl, ?_, rfl, ?_, ?_⟩
  · exact RawURLEncoding_length _ (readInto_length _ _)
  · intro e es he
    exact thumbnailExtension_fst lib _ e es he
  · rw [heq, (thumbnailStore_of_ok lib cfg env file (header.Header.Get "Content-Type") video
      g1 g2 g3 g4).1]
    have hs : "http://" ++ "localhost" ++ ":" = "http://localhost:" := by decide
    simp only [thumbnailFilename, hs, String.append_assoc]

/-- C5, amended, on the sample deployment: the 2 MiB `image/png` of the owner. -/
theorem thumbnail_success_url_witness :
    responseStatus (handlerUploadThumbnail sampleLib sampleCfg (pngEnv 2097152)
      (sampleRequest "Bearer owner-token" 2097700)) = some 200 ∧
    ∃ videoID video file header token extension,
      sampleLib.uuidParse ((sampleRequest "Bearer owner-token" 2097700).PathValue "videoID")
        = .ok videoID ∧
      (pngEnv 2097152).GetVideo videoID = .ok video ∧
      (pngEnv 2097152).FormFile (sampleRequest "Bearer owner-token" 2097700) "thumbnail"
        = .ok (file, header) ∧
      ((pngEnv 2097152).randRead 4).err = none ∧ ((pngEnv 2097152).randRead 4).n = 4 ∧
      token = RawURLEncoding (readInto (makeBytes 4) ((pngEnv 2097152).randRead 4).data) ∧
      token.length = 6 ∧
      extension = (thumbnailExtension sampleLib (header.Header.Get "Content-Type")).1 ∧
      (∀ e es, sampleLib.ExtensionsByType (header.Header.Get "Content-Type")
          = .ok (e :: es) → extension = e) ∧
      responses (handlerUploadThumbnail sampleLib sampleCfg (pngEnv 2097152)
          (sampleRequest "Bearer owner-token" 2097700)) =
        [(200, Payload.video
          { video with
            ThumbnailURL := some ("http://" ++ "localhost" ++ ":" ++ sampleCfg.port
              ++ "/assets/" ++ token ++ extension) })] :=
  ⟨by decide, thumbnail_success_url sampleLib sampleCfg (pngEnv 2097152)
    (sampleRequest "Bearer owner-token" 2097700) (by decide)⟩

/-! ## C6: the put and the URL of an uploaded video -/

/-- The whole trace of a video upload answered with status 200. -/
theorem video_ok_trace (lib : Lib) (cfg : apiConfig) (env : Env) (r : Request)
    (h : responseStatus (handlerUploadVideo lib cfg env r) = some 200) :
    ∃ videoID video file header name,
      lib.uuidParse (r.PathValue "videoID") = .ok videoID ∧
      env.GetVideo videoID = .ok video ∧
      env.FormFile { r with Body := MaxBytesReader r.Body maxUploadSize } "video"
        = .ok (file, header) ∧
      env.CreateTemp "" "tubely-upload-*.mp4" = .ok name ∧
      handlerUploadVideo lib cfg env r =
        [Event.CreateTemp "" "tubely-upload-*.mp4" (.ok name), Event.IoCopy name file none,
         Event.Seek name none, Event.PutObject (videoPutInput cfg videoID name header) none,
         Event.UpdateVideo
          { video with
            VideoURL := some ("https://" ++ cfg.s3Bucket ++ ".s3." ++ cfg.s3Region
              ++ ".amazonaws.com/" ++ (videoID.String ++ ".mp4")) }
          (env.UpdateVideo
            { video with
              VideoURL := some ("https://" ++ cfg.s3Bucket ++ ".s3." ++ cfg.s3Region
                ++ ".amazonaws.com/" ++ (videoID.String ++ ".mp4")) })]
        ++ warnUpdateFailed (env.UpdateVideo
            { video with
              VideoURL := some ("https://" ++ cfg.s3Bucket ++ ".s3." ++ cfg.s3Region
                ++ ".amazonaws.com/" ++ (videoID.String ++ ".mp4")) })
        ++ [respondWithJSON 200
            { video with
              VideoURL := some ("https://" ++ cfg.s3Bucket ++ ".s3." ++ cfg.s3Region
                ++ ".amazonaws.com/" ++ (videoID.String ++ ".mp4")) }]
        ++ videoCleanup name file := by
  obtain ⟨videoID, token, video, file, header, h1, h2, h3, h4, h5, h6, heq⟩ :=
    video_ok_inv lib cfg env r h
  rw [heq] at h
  obtain ⟨name, g1, g2, g3, g4⟩ := videoStore_status_ok cfg env videoID video file header h
  exact ⟨videoID, video, file, header, name, h1, h4, h5, g1,
    heq.trans (videoStore_of_ok cfg env videoID video file header name g1 g2 g3 g4)⟩

/-- C6: every video upload answered 200 issued exactly one put, with the key
`videoID.String() + ".mp4"`, the content type `video/mp4` and the size of the
uploaded part as content length, and returns, in a single response, the record
loaded by `GetVideo` with its videoURL set to `https://` + bucket + `.s3.` +
region + `.amazonaws.com/` + key and its other fields unchanged. -/
theorem video_success_put_and_url (lib : Lib) (cfg : apiConfig) (env : Env) (r : Request)
    (h : responseStatus (handlerUploadVideo lib cfg env r) = some 200) :
    ∃ videoID video file header name,
      lib.uuidParse (r.PathValue "videoID") = .ok videoID ∧
      env.GetVideo videoID = .ok video ∧
      env.FormFile { r with Body := MaxBytesReader r.Body maxUploadSize } "video"
        = .ok (file, header) ∧
      env.CreateTemp "" "tubely-upload-*.mp4" = .ok name ∧
      puts (handlerUploadVideo lib cfg env r) =
        [{ Bucket := cfg.s3Bucket, Key := videoID.String ++ ".mp4", Body := name,
           ContentLength := header.Size, ContentType := "video/mp4" }] ∧
      responses (handlerUploadVideo lib cfg env r) =
        [(200, Payload.video
          { video with
            VideoURL := some ("https://" ++ cfg.s3Bucket ++ ".s3." ++ cfg.s3Region
              ++ ".amazonaws.com/" ++ videoID.String ++ ".mp4") })] := by
  obtain ⟨videoID, video, file, header, name, h1, h4, h5, g1, heq⟩ :=
    video_ok_trace lib cfg env r h
  refine ⟨videoID, video, file, header, name, h1, h4, h5, g1, ?_, ?_⟩
  · rw [heq]
    simp [puts, puts_append, puts_warnUpdateFailed, videoCleanup, respondWithJSON,
      videoPutInput]
  · rw [heq]
    simp [responses, responses_append, responses_warnUpdateFailed, videoCleanup,
      respondWithJSON, String.append_assoc]

/-- C6 on the sample deployment: the owner uploads a valid `video/mp4`. -/
theorem video_success_put_and_url_witness :
    ∃ videoID video file header name,
      sampleLib.uuidParse ((sampleRequest "Bearer owner-token" 5500).PathValue "videoID")
        = .ok videoID ∧
      (videoEnv "video/mp4" 5000 sampleVideo).GetVideo videoID = .ok video ∧
      (videoEnv "video/mp4" 5000 sampleVideo).FormFile
        { sampleRequest "Bearer owner-token" 5500 with
          Body := MaxBytesReader (sampleRequest "Bearer owner-token" 5500).Body
            maxUploadSize } "video"
        = .ok (file, header) ∧
      (videoEnv "video/mp4" 5000 sampleVideo).CreateTemp "" "tubely-upload-*.mp4"
        = .ok name ∧
      puts (handlerUploadVideo sampleLib sampleCfg (videoEnv "video/mp4" 5000 sampleVideo)
          (sampleRequest "Bearer owner-token" 5500)) =
        [{ Bucket := sampleCfg.s3Bucket, Key := videoID.String ++ ".mp4", Body := name,
           ContentLength := header.Size, ContentType := "video/mp4" }] ∧
      responses (handlerUploadVideo sampleLib sampleCfg
          (videoEnv "video/mp4" 5000 sampleVideo)
          (sampleRequest "Bearer owner-token" 5500)) =
        [(200, Payload.video
          { video with
            VideoURL := some ("https://" ++ sampleCfg.s3Bucket ++ ".s3."
              ++ sampleCfg.s3Region ++ ".amazonaws.com/" ++ videoID.String ++ ".mp4") })] :=
  video_success_put_and_url sampleLib sampleCfg (videoEnv "video/mp4" 5000 sampleVideo)
    (sampleRequest "Bearer owner-token" 5500) (by decide)

/-! ## C8: a put that fails -/

/-- C8: for an authorized video upload of declared type `video/mp4` whose
temporary file was created, filled and rewound, a put that returns an error is
answered 500, in a single response; `UpdateVideo` is not called, and the
temporary file is closed, then removed, before the handler returns: no
temporary file is left, none is left open. -/
theorem video_put_failure (lib : Lib) (cfg : apiConfig) (env : Env) (r : Request)
    (videoID : UUID) (token : String) (video : Video) (file : File) (header : FileHeader)
    (name e : String)
    (h1 : lib.uuidParse (r.PathValue "videoID") = .ok videoID)
    (h2 : lib.GetBearerToken r.Header = .ok token)
    (h3 : env.ValidateJWT token cfg.jwtSecret = .ok video.UserID)
    (h4 : env.GetVideo videoID = .ok video)
    (h5 : env.FormFile { r with Body := MaxBytesReader r.Body maxUploadSize } "video"
      = .ok (file, header))
    (h6 : lib.ParseMediaType (header.Header.Get "Content-Type") = .ok "video/mp4")
    (h7 : env.CreateTemp "" "tubely-upload-*.mp4" = .ok name)
    (h8 : env.ioCopy name file = none)
    (h9 : env.Seek name = none)
    (h10 : env.PutObject (videoPutInput cfg videoID name header) = some e) :
    handlerUploadVideo lib cfg env r =
      [Event.CreateTemp "" "tubely-upload-*.mp4" (.ok name), Event.IoCopy name file none,
       Event.Seek name none, Event.PutObject (videoPutInput cfg videoID name header) (some e),
       respondWithError 500 "Failed to upload video to S3",
       Event.TempClose name, Event.TempRemove name, Event.FileClose file] ∧
    responseStatus (handlerUploadVideo lib cfg env r) = some 500 ∧
    (responses (handlerUploadVideo lib cfg env r)).length = 1 ∧
    updates (handlerUploadVideo lib cfg env r) = [] ∧
    tempFiles [] (handlerUploadVideo lib cfg env r) = [] ∧
    openTemps [] (handlerUploadVideo lib cfg env r) = [] := by
  have hv : handlerUploadVideo lib cfg env r =
      [Event.CreateTemp "" "tubely-upload-*.mp4" (.ok name), Event.IoCopy name file none,
       Event.Seek name none, Event.PutObject (videoPutInput cfg videoID name header) (some e),
       respondWithError 500 "Failed to upload video to S3",
       Event.TempClose name, Event.TempRemove name, Event.FileClose file] := by
    rw [handlerUploadVideo_loaded lib cfg env r videoID video.UserID token video h1 h2 h3 h4]
    unfold videoPutInput at h10
    simp [h5, h6, expectedMIMEType, videoStore, h7, h8, h9, h10, videoCleanup, videoPutInput]
  rw [hv]
  simp [responseStatus, responses, respondWithError, updates, tempFiles, openTemps]

/-- C8 on the sample deployment: the put fails with a network error. -/
theorem video_put_failure_witness :
    responseStatus (handlerUploadVideo sampleLib sampleCfg putFailsEnv
      (sampleRequest "Bearer owner-token" 5500)) = some 500 ∧
    updates (handlerUploadVideo sampleLib sampleCfg putFailsEnv
      (sampleRequest "Bearer owner-token" 5500)) = [] ∧
    tempFiles [] (handlerUploadVideo sampleLib sampleCfg putFailsEnv
      (sampleRequest "Bearer owner-token" 5500)) = [] ∧
    openTemps [] (handlerUploadVideo sampleLib sampleCfg putFailsEnv
      (sampleRequest "Bearer owner-token" 5500)) = [] :=
  have h := video_put_failure sampleLib sampleCfg putFailsEnv
    (sampleRequest "Bearer owner-token" 5500) sampleID "owner-token" sampleVideo ⟨3⟩
    (partHeader "boots.bin" "video/mp4" 5000) "/tmp/tubely-upload-2718281828.mp4"
    "RequestError: send request failed"
    (by decide) (by decide) (by decide) (by decide) (by decide) (by decide) (by decide)
    (by decide) (by decide) (by decide)
  ⟨h.2.1, h.2.2.2.1, h.2.2.2.2.1, h.2.2.2.2.2⟩

/-! ## C10: one response, and nothing after it -/

theorem afterFirstResponse_warnUpdateFailed (err : Option String) (es : List Event) :
    afterFirstResponse (warnUpdateFailed err ++ es) = afterFirstResponse es := by
  cases err <;> rfl

theorem afterFirstResponse_thumbnailExtension (lib : Lib) (t : String) (es : List Event) :
    afterFirstResponse ((thumbnailExtension lib t).2 ++ es) = afterFirstResponse es := by
  unfold thumbnailExtension
  split <;> rfl

/-- The storing section of the video handler writes one response and, after
it, only closes and removes. -/
theorem videoStore_terminal (cfg : apiConfig) (env : Env) (videoID : UUID) (video : Video)
    (file : File) (header : FileHeader) (baseType : String) :
    (responses (videoStore cfg env videoID video file header baseType)).length = 1 ∧
    storageWrites (afterFirstResponse
      (videoStore cfg env videoID video file header baseType)) = [] := by
  unfold videoStore
  simp only []
  split
  · simp [responses, respondWithError, afterFirstResponse, storageWrites,
      Event.isStorageWrite]
  · split
    · simp [responses, respondWithError, afterFirstResponse, storageWrites,
        Event.isStorageWrite, videoCleanup]
    · split
      · simp [responses, respondWithError, afterFirstResponse, storageWrites,
          Event.isStorageWrite, videoCleanup]
      · split
        · simp [responses, respondWithError, afterFirstResponse, storageWrites,
            Event.isStorageWrite, videoCleanup]
        · simp [responses, responses_append, responses_warnUpdateFailed, respondWithJSON,
            afterFirstResponse, afterFirstResponse_warnUpdateFailed, storageWrites,
            Event.isStorageWrite, videoCleanup]

/-- Every run of the video handler writes exactly one response and makes no
storage write after it. -/
theorem video_terminal (lib : Lib) (cfg : apiConfig) (env : Env) (r : Request) :
    (responses (handlerUploadVideo lib cfg env r)).length = 1 ∧
    storageWrites (afterFirstResponse (handlerUploadVideo lib cfg env r)) = [] := by
  unfold handlerUploadVideo
  split
  · simp [responses, respondWithError, afterFirstResponse, storageWrites]
  split
  · simp [responses, respondWithError, afterFirstResponse, storageWrites]
  split
  · simp [responses, respondWithError, afterFirstResponse, storageWrites]
  split
  · simp [responses, respondWithError, afterFirstResponse, storageWrites]
  split
  · simp [responses, respondWithError, afterFirstResponse, storageWrites]
  simp only []
  split
  · split <;> simp [responses, respondWithError, afterFirstResponse, storageWrites]
  split
  · simp [responses, respondWithError, afterFirstResponse, storageWrites,
      Event.isStorageWrite]
  split
  · simp [responses, respondWithError, afterFirstResponse, storageWrites,
      Event.isStorageWrite]
  · exact videoStore_terminal cfg env _ _ _ _ _

/-- When `rand.Read` succeeds with four bytes, the storing section of the
thumbnail handler writes one response and, after it, only closes and removes. -/
theorem thumbnailStore_terminal (lib : Lib) (cfg : apiConfig) (env : Env) (file : File)
    (mediaType : String) (video : Video)
    (h1 : (env.randRead 4).err = none) (h2 : (env.randRead 4).n = 4) :
    (responses (thumbnailStore lib cfg env file mediaType video)).length = 1 ∧
    storageWrites (afterFirstResponse
      (thumbnailStore lib cfg env file mediaType video)) = [] := by
  unfold thumbnailStore
  simp only [h1, h2, Option.isSome_none, ne_eq, not_true_eq_false, if_false,
    Bool.false_eq_true, List.append_nil]
  split
  · simp [responses, responses_append, responses_thumbnailExtension, respondWithError,
      afterFirstResponse, afterFirstResponse_thumbnailExtension, storageWrites,
      Event.isStorageWrite]
  · split
    · simp [responses, responses_append, responses_thumbnailExtension, respondWithError,
        afterFirstResponse, afterFirstResponse_thumbnailExtension, storageWrites,
        Event.isStorageWrite]
    · simp [responses, responses_append, responses_thumbnailExtension,
        responses_warnUpdateFailed, respondWithJSON, afterFirstResponse,
        afterFirstResponse_thumbnailExtension, afterFirstResponse_warnUpdateFailed,
        storageWrites, Event.isStorageWrite]

/-- When `rand.Read` succeeds with four bytes, every run of the thumbnail
handler writes exactly one response and makes no storage write after it. -/
theorem thumbnail_terminal (lib : Lib) (cfg : apiConfig) (env : Env) (r : Request)
    (h1 : (env.randRead 4).err = none) (h2 : (env.randRead 4).n = 4) :
    (responses (handlerUploadThumbnail lib cfg env r)).length = 1 ∧
    storageWrites (afterFirstResponse (handlerUploadThumbnail lib cfg env r)) = [] := by
  unfold handlerUploadThumbnail
  split
  · simp [responses, respondWithError, afterFirstResponse, storageWrites]
  split
  · simp [responses, respondWithError, afterFirstResponse, storageWrites]
  split
  · simp [responses, respondWithError, afterFirstResponse, storageWrites]
  split
  · simp [responses, respondWithError, afterFirstResponse, storageWrites]
  split
  · simp [responses, respondWithError, afterFirstResponse, storageWrites,
      Event.isStorageWrite]
  simp only []
  split
  · simp [responses, respondWithError, afterFirstResponse, storageWrites,
      Event.isStorageWrite]
  split
  · simp [responses, respondWithError, afterFirstResponse, storageWrites,
      Event.isStorageWrite]
  split
  · simp [responses, respondWithError, afterFirstResponse, storageWrites,
      Event.isStorageWrite]
  · exact thumbnailStore_terminal lib cfg env _ _ _ h1 h2

/-- C10 fails on the code: the two tests on the result of `rand.Read` (lines 106
to 112 of the thumbnail handler) answer 500 and do not return.  With the random
source failing, the owner's thumbnail upload writes three responses, and after
the first one it creates `assets/AAAAAA.png`, copies the part into it and calls
`UpdateVideo`; the same happens when the read stops after two bytes. -/
theorem thumbnail_rand_failure_continues :
    handlerUploadThumbnail sampleLib sampleCfg randFailsEnv
        (sampleRequest "Bearer owner-token" 4096) =
      [respondWithError 500 "Error reading random bytes: %v",
       respondWithError 500 "Expected to read 4 bytes, but read 0",
       Event.OsCreate "assets/AAAAAA.png" none,
       Event.IoCopy "assets/AAAAAA.png" ⟨3⟩ none,
       Event.UpdateVideo
         { sampleVideo with
           ThumbnailURL := some "http://localhost:8091/assets/AAAAAA.png" } none,
       respondWithJSON 200
         { sampleVideo with
           ThumbnailURL := some "http://localhost:8091/assets/AAAAAA.png" },
       Event.OutFileClose "assets/AAAAAA.png", Event.FileClose ⟨3⟩, Event.RemoveAll] ∧
    storageWrites (afterFirstResponse (handlerUploadThumbnail sampleLib sampleCfg
        randFailsEnv (sampleRequest "Bearer owner-token" 4096))) =
      [Event.OsCreate "assets/AAAAAA.png" none,
       Event.IoCopy "assets/AAAAAA.png" ⟨3⟩ none,
       Event.UpdateVideo
         { sampleVideo with
           ThumbnailURL := some "http://localhost:8091/assets/AAAAAA.png" } none] ∧
    responses (handlerUploadThumbnail sampleLib sampleCfg shortReadEnv
        (sampleRequest "Bearer owner-token" 4096)) =
      [(500, Payload.error "Error reading random bytes: %v"),
       (500, Payload.error "Expected to read 4 bytes, but read 2"),
       (200, Payload.video
         { sampleVideo with
           ThumbnailURL := some "http://localhost:8091/assets/3q0AAA.png" })] := by
  decide

/-! ## C7: a failure of `UpdateVideo` -/

/-- The outcome of `UpdateVideo` does not reach the client of the video handler:
the responses are those of the world in which `UpdateVideo` answers otherwise. -/
theorem video_update_outcome_hidden (lib : Lib) (cfg : apiConfig) (env : Env) (r : Request)
    (f : Video → Option String) :
    responses (handlerUploadVideo lib cfg { env with UpdateVideo := f } r) =
      responses (handlerUploadVideo lib cfg env r) := by
  unfold handlerUploadVideo
  simp only []
  split
  · rfl
  split
  · rfl
  split
  · rfl
  split
  · rfl
  split
  · rfl
  split
  · rfl
  split
  · rfl
  split
  · rfl
  unfold videoStore
  simp only []
  split
  · rfl
  split
  · rfl
  split
  · rfl
  split
  · rfl
  simp [responses, responses_append, responses_warnUpdateFailed]

/-- The outcome of `UpdateVideo` does not reach the client of the thumbnail handler. -/
theorem thumbnail_update_outcome_hidden (lib : Lib) (cfg : apiConfig) (env : Env)
    (r : Request) (f : Video → Option String) :
    responses (handlerUploadThumbnail lib cfg { env with UpdateVideo := f } r) =
      responses (handlerUploadThumbnail lib cfg env r) := by
  unfold handlerUploadThumbnail
  simp only []
  split
  · rfl
  split
  · rfl
  split
  · rfl
  split
  · rfl
  split
  · rfl
  split
  · rfl
  split
  · rfl
  split
  · rfl
  unfold thumbnailStore
  simp only []
  split
  · rfl
  split
  · rfl
  simp [responses, responses_append, responses_warnUpdateFailed]

theorem updateVideo_not_mem_warn (v : Video) (err e : Option String) :
    Event.UpdateVideo v err ∉ warnUpdateFailed e := by
  cases e <;> simp [warnUpdateFailed]

theorem updateVideo_not_mem_ext (lib : Lib) (t : String) (v : Video) (err : Option String) :
    Event.UpdateVideo v err ∉ (thumbnailExtension lib t).2 := by
  unfold thumbnailExtension
  split <;> simp

/-- A run of the video handler that calls `UpdateVideo` is in its storing section. -/
theorem video_update_inv (lib : Lib) (cfg : apiConfig) (env : Env) (r : Request)
    (v : Video) (err : Option String)
    (h : Event.UpdateVideo v err ∈ handlerUploadVideo lib cfg env r) :
    ∃ videoID video file header baseType,
      handlerUploadVideo lib cfg env r =
        videoStore cfg env videoID video file header baseType := by
  revert h
  unfold handlerUploadVideo
  split
  · simp [respondWithError]
  split
  · simp [respondWithError]
  split
  · simp [respondWithError]
  split
  · simp [respondWithError]
  split
  · simp [respondWithError]
  simp only []
  split
  · split <;> simp [respondWithError]
  split
  · simp [respondWithError]
  split
  · simp [respondWithError]
  intro _
  exact ⟨_, _, _, _, _, rfl⟩

/-- The storing section of the video handler, once it calls `UpdateVideo`,
answers 200 with the record it handed over, whose videoURL is set. -/
theorem videoStore_update_reached (cfg : apiConfig) (env : Env) (videoID : UUID)
    (video : Video) (file : File) (header : FileHeader) (baseType : String)
    (v : Video) (err : Option String)
    (h : Event.UpdateVideo v err ∈ videoStore cfg env videoID video file header baseType) :
    responses (videoStore cfg env videoID video file header baseType)
      = [(200, Payload.video v)] ∧
    ∃ url, v.VideoURL = some url := by
  revert h
  unfold videoStore
  simp only []
  split
  · simp [respondWithError]
  split
  · simp [respondWithError, videoCleanup]
  split
  · simp [respondWithError, videoCleanup]
  split
  · simp [respondWithError, videoCleanup]
  simp only [List.mem_append, List.mem_cons, updateVideo_not_mem_warn, videoCleanup,
    respondWithJSON, responses, responses_append, responses_warnUpdateFailed]
  simp
  intro hv _
  simp [hv, responses, responses_append, responses_warnUpdateFailed]

/-- A run of the thumbnail handler that calls `UpdateVideo` is in its storing section. -/
theorem thumbnail_update_inv (lib : Lib) (cfg : apiConfig) (env : Env) (r : Request)
    (v : Video) (err : Option String)
    (h : Event.UpdateVideo v err ∈ handlerUploadThumbnail lib cfg env r) :
    ∃ file mediaType video,
      handlerUploadThumbnail lib cfg env r =
        thumbnailStore lib cfg env file mediaType video := by
  revert h
  unfold handlerUploadThumbnail
  split
  · simp [respondWithError]
  split
  · simp [respondWithError]
  split
  · simp [respondWithError]
  split
  · simp [respondWithError]
  split
  · simp [respondWithError]
  simp only []
  split
  · simp [respondWithError]
  split
  · simp [respondWithError]
  split
  · simp [respondWithError]
  intro _
  exact ⟨_, _, _, rfl⟩

/-- The storing section of the thumbnail handler, once it calls `UpdateVideo`,
ends its responses with 200 and the record it handed over, whose thumbnailURL is
set; that response is the only one when `rand.Read` filled the four bytes. -/
theorem thumbnailStore_update_reached (lib : Lib) (cfg : apiConfig) (env : Env)
    (file : File) (mediaType : String) (video v : Video) (err : Option String)
    (h : Event.UpdateVideo v err ∈ thumbnailStore lib cfg env file mediaType video) :
    (responses (thumbnailStore lib cfg env file mediaType video)).getLast?
      = some (200, Payload.video v) ∧
    (∃ url, v.ThumbnailURL = some url) ∧
    ((env.randRead 4).err = none → (env.randRead 4).n = 4 →
      responses (thumbnailStore lib cfg env file mediaType video)
        = [(200, Payload.video v)]) := by
  revert h
  unfold thumbnailStore
  simp only []
  split
  · simp [respondWithError, updateVideo_not_mem_ext]
  split
  · simp [respondWithError, updateVideo_not_mem_ext]
  simp only [List.mem_append, List.mem_cons, updateVideo_not_mem_warn,
    updateVideo_not_mem_ext, respondWithJSON, respondWithError, responses,
    responses_append, responses_warnUpdateFailed, responses_thumbnailExtension]
  simp
  intro hv _
  subst hv
  refine ⟨rfl, ⟨_, rfl⟩, ?_⟩
  intro h1 h2
  simp [h1, h2, responses]

/-- C7: in every run in which the storage commit succeeded and `UpdateVideo`
then returned an error, the error is only logged.  `handlerUploadVideo` answers
200, in its single response, with the in-memory record whose videoURL is set,
and its responses are those of the run in which `UpdateVideo` succeeds.
`handlerUploadThumbnail` ends its responses with 200 and the in-memory record
whose thumbnailURL is set, its responses are those of the run in which
`UpdateVideo` succeeds, and when `rand.Read` filled the four bytes, so that no
earlier failure was answered, that response is the only one and the status is 200. -/
theorem update_failure_not_surfaced (lib : Lib) (cfg : apiConfig) (env : Env)
    (r : Request) (v : Video) (e : String) :
    (Event.UpdateVideo v (some e) ∈ handlerUploadVideo lib cfg env r →
      responseStatus (handlerUploadVideo lib cfg env r) = some 200 ∧
      responses (handlerUploadVideo lib cfg env r) = [(200, Payload.video v)] ∧
      (∃ url, v.VideoURL = some url) ∧
      responses (handlerUploadVideo lib cfg { env with UpdateVideo := fun _ => none } r)
        = responses (handlerUploadVideo lib cfg env r)) ∧
    (Event.UpdateVideo v (some e) ∈ handlerUploadThumbnail lib cfg env r →
      (responses (handlerUploadThumbnail lib cfg env r)).getLast?
        = some (200, Payload.video v) ∧
      (∃ url, v.ThumbnailURL = some url) ∧
      responses (handlerUploadThumbnail lib cfg { env with UpdateVideo := fun _ => none } r)
        = responses (handlerUploadThumbnail lib cfg env r) ∧
      ((env.randRead 4).err = none → (env.randRead 4).n = 4 →
        responseStatus (handlerUploadThumbnail lib cfg env r) = some 200 ∧
        responses (handlerUploadThumbnail lib cfg env r) = [(200, Payload.video v)])) := by
  constructor
  · intro h
    obtain ⟨videoID, video, file, header, baseType, heq⟩ :=
      video_update_inv lib cfg env r v (some e) h
    have hmem := h
    rw [heq] at hmem
    obtain ⟨hr, hu⟩ :=
      videoStore_update_reached cfg env videoID video file header baseType v (some e) hmem
    refine ⟨?_, ?_, hu, video_update_outcome_hidden lib cfg env r _⟩
    · unfold responseStatus
      rw [heq, hr]
    · rw [heq, hr]
  · intro h
    obtain ⟨file, mediaType, video, heq⟩ := thumbnail_update_inv lib cfg env r v (some e) h
    have hmem := h
    rw [heq] at hmem
    obtain ⟨hl, hu, hr⟩ :=
      thumbnailStore_update_reached lib cfg env file mediaType video v (some e) hmem
    refine ⟨?_, hu, thumbnail_update_outcome_hidden lib cfg env r _, ?_⟩
    · rw [heq, hl]
    · intro h1 h2
      have hr' := hr h1 h2
      constructor
      · unfold responseStatus
        rw [heq, hr']
      · rw [heq, hr']

/-- C7 on the sample deployment: the owner's valid video and thumbnail uploads
in worlds where `UpdateVideo` fails with `database is locked`. -/
theorem update_failure_not_surfaced_witness :
    responseStatus (handlerUploadVideo sampleLib sampleCfg videoUpdateFailsEnv
      (sampleRequest "Bearer owner-token" 5500)) = some 200 ∧
    responses (handlerUploadVideo sampleLib sampleCfg videoUpdateFailsEnv
      (sampleRequest "Bearer owner-token" 5500)) = [(200, Payload.video uploadedVideo)] ∧
    responseStatus (handlerUploadThumbnail sampleLib sampleCfg thumbnailUpdateFailsEnv
      (sampleRequest "Bearer owner-token" 4096)) = some 200 ∧
    responses (handlerUploadThumbnail sampleLib sampleCfg thumbnailUpdateFailsEnv
      (sampleRequest "Bearer owner-token" 4096)) =
      [(200, Payload.video
        { sampleVideo with
          ThumbnailURL := some "http://localhost:8091/assets/3q2-7w.png" })] :=
  have hv := (update_failure_not_surfaced sampleLib sampleCfg videoUpdateFailsEnv
    (sampleRequest "Bearer owner-token" 5500) uploadedVideo "database is locked").1
    (by decide)
  have ht := ((update_failure_not_surfaced sampleLib sampleCfg thumbnailUpdateFailsEnv
    (sampleRequest "Bearer owner-token" 4096)
    { sampleVideo with ThumbnailURL := some "http://localhost:8091/assets/3q2-7w.png" }
    "database is locked").2 (by decide)).2.2.2 (by decide) (by decide)
  ⟨hv.1, hv.2.1, ht.1, ht.2⟩

/-! ## C9: the same bytes uploaded twice -/

theorem append_right_cancel (a b e : String) (h : a ++ e = b ++ e) : a = b := by
  have hd := congrArg String.data h
  simp only [String.data_append] at hd
  exact String.ext (List.append_cancel_right hd)

/-- C9, as stated, fails: the owner uploads the same video twice, the second
time with the record as the first upload left it; both uploads are answered 200
and both puts use the key `6ba7b810-9dad-11d1-80b4-00c04fd430c8.mp4`. -/
theorem video_reupload_same_key :
    updates (handlerUploadVideo sampleLib sampleCfg (videoEnv "video/mp4" 5000 sampleVideo)
      (sampleRequest "Bearer owner-token" 5500)) = [uploadedVideo] ∧
    responseStatus (handlerUploadVideo sampleLib sampleCfg
      (videoEnv "video/mp4" 5000 sampleVideo)
      (sampleRequest "Bearer owner-token" 5500)) = some 200 ∧
    responseStatus (handlerUploadVideo sampleLib sampleCfg
      (videoEnv "video/mp4" 5000 uploadedVideo)
      (sampleRequest "Bearer owner-token" 5500)) = some 200 ∧
    (puts (handlerUploadVideo sampleLib sampleCfg (videoEnv "video/mp4" 5000 sampleVideo)
      (sampleRequest "Bearer owner-token" 5500))).map PutObjectInput.Key
      = ["6ba7b810-9dad-11d1-80b4-00c04fd430c8.mp4"] ∧
    (puts (handlerUploadVideo sampleLib sampleCfg (videoEnv "video/mp4" 5000 uploadedVideo)
      (sampleRequest "Bearer owner-token" 5500))).map PutObjectInput.Key
      = ["6ba7b810-9dad-11d1-80b4-00c04fd430c8.mp4"] := by
  decide

/-- C9, amended: two uploads of the same request that are both answered 200
make one storage write each, and the record returned by the second carries the
URL built from the second key.  On `handlerUploadVideo` the two keys are the
same, `videoID.String() + ".mp4"`, and so are the two URLs.  On
`handlerUploadThumbnail`, for the same uploaded part, the two file names are the
tokens of the two random buffers followed by the same extension, and they differ
exactly when the two buffers differ. -/
theorem reupload_keys (lib : Lib) (cfg : apiConfig) (env1 env2 : Env) (r : Request) :
    (responseStatus (handlerUploadVideo lib cfg env1 r) = some 200 →
     responseStatus (handlerUploadVideo lib cfg env2 r) = some 200 →
     ∃ videoID v1 v2,
      lib.uuidParse (r.PathValue "videoID") = .ok videoID ∧
      (puts (handlerUploadVideo lib cfg env1 r)).map PutObjectInput.Key
        = [videoID.String ++ ".mp4"] ∧
      (puts (handlerUploadVideo lib cfg env2 r)).map PutObjectInput.Key
        = [videoID.String ++ ".mp4"] ∧
      responses (handlerUploadVideo lib cfg env1 r) = [(200, Payload.video v1)] ∧
      responses (handlerUploadVideo lib cfg env2 r) = [(200, Payload.video v2)] ∧
      v1.VideoURL = some ("https://" ++ cfg.s3Bucket ++ ".s3." ++ cfg.s3Region
        ++ ".amazonaws.com/" ++ videoID.String ++ ".mp4") ∧
      v2.VideoURL = v1.VideoURL) ∧
    (responseStatus (handlerUploadThumbnail lib cfg env1 r) = some 200 →
     responseStatus (handlerUploadThumbnail lib cfg env2 r) = some 200 →
     env1.FormFile r "thumbnail" = env2.FormFile r "thumbnail" →
     ∃ token1 token2 extension v2,
      token1 = RawURLEncoding (readInto (makeBytes 4) (env1.randRead 4).data) ∧
      token2 = RawURLEncoding (readInto (makeBytes 4) (env2.randRead 4).data) ∧
      created (handlerUploadThumbnail lib cfg env1 r)
        = [lib.filepathJoin cfg.assetsRoot (token1 ++ extension)] ∧
      created (handlerUploadThumbnail lib cfg env2 r)
        = [lib.filepathJoin cfg.assetsRoot (token2 ++ extension)] ∧
      responses (handlerUploadThumbnail lib cfg env2 r) = [(200, Payload.video v2)] ∧
      v2.ThumbnailURL = some ("http://localhost:" ++ cfg.port ++ "/assets/"
        ++ (token2 ++ extension)) ∧
      (token1 ++ extension ≠ token2 ++ extension ↔
        readInto (makeBytes 4) (env1.randRead 4).data
          ≠ readInto (makeBytes 4) (env2.randRead 4).data)) := by
  constructor
  · intro ha hb
    obtain ⟨videoID, video, file, header, name, a1, a2, a3, a4, a5⟩ :=
      video_ok_trace lib cfg env1 r ha
    obtain ⟨videoID', video', file', header', name', b1, b2, b3, b4, b5⟩ :=
      video_ok_trace lib cfg env2 r hb
    have hid : videoID' = videoID := by
      rw [a1] at b1
      exact (Except.ok.inj b1).symm
    subst hid
    refine ⟨videoID',
      { video with
        VideoURL := some ("https://" ++ cfg.s3Bucket ++ ".s3." ++ cfg.s3Region
          ++ ".amazonaws.com/" ++ (videoID'.String ++ ".mp4")) },
      { video' with
        VideoURL := some ("https://" ++ cfg.s3Bucket ++ ".s3." ++ cfg.s3Region
          ++ ".amazonaws.com/" ++ (videoID'.String ++ ".mp4")) },
      a1, ?_, ?_, ?_, ?_, ?_, rfl⟩
    · rw [a5]
      simp [puts, puts_append, puts_warnUpdateFailed, videoCleanup, respondWithJSON,
        videoPutInput]
    · rw [b5]
      simp [puts, puts_append, puts_warnUpdateFailed, videoCleanup, respondWithJSON,
        videoPutInput]
    · rw [a5]
      simp [responses, responses_append, responses_warnUpdateFailed, videoCleanup,
        respondWithJSON]
    · rw [b5]
      simp [responses, responses_append, responses_warnUpdateFailed, videoCleanup,
        respondWithJSON]
    · simp [String.append_assoc]
  · intro ha hb hform
    obtain ⟨videoID, token, file, header, video, a1, a2, a3, a4, a5, a6, a7⟩ :=
      thumbnail_ok_inv lib cfg env1 r ha
    obtain ⟨videoID', token', file', header', video', b1, b2, b3, b4, b5, b6, b7⟩ :=
      thumbnail_ok_inv lib cfg env2 r hb
    have hfh : (file', header') = (file, header) := by
      rw [a5, b5] at hform
      exact (Except.ok.inj hform).symm
    obtain ⟨hf, hh⟩ := Prod.mk.inj hfh
    subst hf
    subst hh
    have ea := handlerUploadThumbnail_authorized lib cfg env1 r videoID token file' header'
      video a1 a2 a3 a4 a5 a6 a7
    have eb := handlerUploadThumbnail_authorized lib cfg env2 r videoID' token' file' header'
      video' b1 b2 b3 b4 b5 b6 b7
    rw [ea] at ha
    rw [eb] at hb
    obtain ⟨c1, c2, c3, c4⟩ :=
      thumbnailStore_status_ok lib cfg env1 file' (header'.Header.Get "Content-Type") video ha
    obtain ⟨d1, d2, d3, d4⟩ :=
      thumbnailStore_status_ok lib cfg env2 file' (header'.Header.Get "Content-Type") video' hb
    obtain ⟨_, p2, _⟩ :=
      thumbnailStore_of_ok lib cfg env1 file' (header'.Header.Get "Content-Type") video
        c1 c2 c3 c4
    obtain ⟨q1, q2, _⟩ :=
      thumbnailStore_of_ok lib cfg env2 file' (header'.Header.Get "Content-Type") video'
        d1 d2 d3 d4
    refine ⟨_, _, (thumbnailExtension lib (header'.Header.Get "Content-Type")).1,
      { video' with
        ThumbnailURL := some ("http://localhost:" ++ cfg.port ++ "/assets/"
          ++ thumbnailFilename lib env2 (header'.Header.Get "Content-Type")) },
      rfl, rfl, ?_, ?_, ?_, rfl, ?_⟩
    · rw [ea, p2]; rfl
    · rw [eb, q2]; rfl
    · rw [eb, q1]
    · constructor
      · intro hne hbuf
        exact hne (by rw [hbuf])
      · intro hne hname
        exact hne (RawURLEncoding_injective _ _ (readInto_length _ _) (readInto_length _ _)
          (append_right_cancel _ _ _ hname))

/-- C9, amended, on the sample deployment: the video uploaded twice, and the
PNG uploaded twice with the random buffers `de ad be ef` and `01 02 03 04`. -/
theorem reupload_keys_witness :
    (∃ videoID v1 v2,
      sampleLib.uuidParse ((sampleRequest "Bearer owner-token" 5500).PathValue "videoID")
        = .ok videoID ∧
      (puts (handlerUploadVideo sampleLib sampleCfg (videoEnv "video/mp4" 5000 sampleVideo)
        (sampleRequest "Bearer owner-token" 5500))).map PutObjectInput.Key
        = [videoID.String ++ ".mp4"] ∧
      (puts (handlerUploadVideo sampleLib sampleCfg (videoEnv "video/mp4" 5000 uploadedVideo)
        (sampleRequest "Bearer owner-token" 5500))).map PutObjectInput.Key
        = [videoID.String ++ ".mp4"] ∧
      responses (handlerUploadVideo sampleLib sampleCfg
        (videoEnv "video/mp4" 5000 sampleVideo) (sampleRequest "Bearer owner-token" 5500))
        = [(200, Payload.video v1)] ∧
      responses (handlerUploadVideo sampleLib sampleCfg
        (videoEnv "video/mp4" 5000 uploadedVideo) (sampleRequest "Bearer owner-token" 5500))
        = [(200, Payload.video v2)] ∧
      v1.VideoURL = some ("https://" ++ sampleCfg.s3Bucket ++ ".s3." ++ sampleCfg.s3Region
        ++ ".amazonaws.com/" ++ videoID.String ++ ".mp4") ∧
      v2.VideoURL = v1.VideoURL) ∧
    created (handlerUploadThumbnail sampleLib sampleCfg (pngEnv 2048)
      (sampleRequest "Bearer owner-token" 4096)) = ["assets/3q2-7w.png"] ∧
    created (handlerUploadThumbnail sampleLib sampleCfg pngEnvAgain
      (sampleRequest "Bearer owner-token" 4096)) = ["assets/AQIDBA.png"] ∧
    ∃ token1 token2 extension v2,
      token1 = RawURLEncoding (readInto (makeBytes 4) ((pngEnv 2048).randRead 4).data) ∧
      token2 = RawURLEncoding (readInto (makeBytes 4) (pngEnvAgain.randRead 4).data) ∧
      created (handlerUploadThumbnail sampleLib sampleCfg (pngEnv 2048)
          (sampleRequest "Bearer owner-token" 4096))
        = [sampleLib.filepathJoin sampleCfg.assetsRoot (token1 ++ extension)] ∧
      created (handlerUploadThumbnail sampleLib sampleCfg pngEnvAgain
          (sampleRequest "Bearer owner-token" 4096))
        = [sampleLib.filepathJoin sampleCfg.assetsRoot (token2 ++ extension)] ∧
      responses (handlerUploadThumbnail sampleLib sampleCfg pngEnvAgain
          (sampleRequest "Bearer owner-token" 4096)) = [(200, Payload.video v2)] ∧
      v2.ThumbnailURL = some ("http://localhost:" ++ sampleCfg.port ++ "/assets/"
        ++ (token2 ++ extension)) ∧
      (token1 ++ extension ≠ token2 ++ extension ↔
        readInto (makeBytes 4) ((pngEnv 2048).randRead 4).data
          ≠ readInto (makeBytes 4) (pngEnvAgain.randRead 4).data) :=
  ⟨(reupload_keys sampleLib sampleCfg (videoEnv "video/mp4" 5000 sampleVideo)
      (videoEnv "video/mp4" 5000 uploadedVideo) (sampleRequest "Bearer owner-token" 5500)).1
      (by decide) (by decide),
   by decide, by decide,
   (reupload_keys sampleLib sampleCfg (pngEnv 2048) pngEnvAgain
      (sampleRequest "Bearer owner-token" 4096)).2 (by decide) (by decide) (by decide)⟩

end Tubely
